import Mathlib

/-!
Shallow embedding of the ENEM preprocessing pipeline
(`src/data/preprocessing.py`) and verification of its specification.

A pandas `DataFrame` is modelled as an ordered association list of named
columns; each column carries its dtype and a list of cell values aligned by
row index.  `NaN` (the pandas missing marker) is modelled by `Value.null`;
numeric cells are modelled by exact rationals.  The sample standard deviation
stored by the derived-feature stage is an irrational float in the source, so
it is represented symbolically by `Value.sqrtNum q`, denoting the nonnegative
square root of the rational `q`; the interpretation `Value.interp` maps it to
the corresponding real number.
-/

deriving instance DecidableEq for Except

namespace Enem

/-!
Exact rational arithmetic, written through `Rat.divInt` so that every
operation of the model reduces inside the kernel (the library's `Rat.add`,
`Rat.mul`, `Rat.inv` are irreducible); each operation is proved equal to the
corresponding field operation below.
-/

/-- Addition on `ℚ`. -/
def qadd (a b : ℚ) : ℚ :=
  Rat.divInt (a.num * b.den + b.num * a.den) ((a.den : ℤ) * (b.den : ℤ))

/-- Multiplication on `ℚ`. -/
def qmul (a b : ℚ) : ℚ := Rat.divInt (a.num * b.num) ((a.den : ℤ) * (b.den : ℤ))

/-- Negation on `ℚ`. -/
def qneg (a : ℚ) : ℚ := Rat.divInt (-a.num) (a.den : ℤ)

/-- Inverse on `ℚ` (0 for 0). -/
def qinv (a : ℚ) : ℚ := Rat.divInt (a.den : ℤ) a.num

/-- Division on `ℚ`. -/
def qdiv (a b : ℚ) : ℚ := qmul a (qinv b)

/-- Subtraction on `ℚ`. -/
def qsub (a b : ℚ) : ℚ := qadd a (qneg b)

/-- Sum of a list of rationals. -/
def qsum (l : List ℚ) : ℚ := l.foldr qadd 0

/-- Arithmetic mean of a list of rationals. -/
def ratMean (xs : List ℚ) : ℚ := qdiv (qsum xs) ((xs.length : ℕ) : ℚ)

/-- Sample variance (`ddof=1`). -/
def sampleVar (xs : List ℚ) : ℚ :=
  qdiv (qsum (xs.map (fun x => qmul (qsub x (ratMean xs)) (qsub x (ratMean xs)))))
    (((xs.length - 1 : ℕ) : ℚ))

/-- Pandas dtypes that occur in the pipeline: the integer and float kinds
selected by `select_dtypes(include=['int', 'float'])`, and the
`category`/`object` kinds selected by `include=['category', 'object']`. -/
inductive Dtype where
  | int8 | int16 | int64 | float32 | float64 | category | object
deriving DecidableEq

/-- A cell value.  `null` is the missing marker (`NaN`); `num q` an exact
numeric value; `str s` a string value; `sqrtNum q` the nonnegative square
root of `q` (produced only by the derived-feature stage for `SCORE_STD`). -/
inductive Value where
  | null
  | num (q : ℚ)
  | str (s : String)
  | sqrtNum (q : ℚ)
deriving DecidableEq

/-- Real-number interpretation of a cell value (missing and string cells
interpret as 0; only used to state facts about numeric cells). -/
noncomputable def Value.interp : Value → ℝ
  | .null => 0
  | .num q => (q : ℝ)
  | .str _ => 0
  | .sqrtNum q => Real.sqrt (q : ℝ)

/-- A DataFrame column: its dtype and its cells in row order. -/
structure Column where
  dtype : Dtype
  cells : List Value
deriving DecidableEq

/-- A DataFrame: an ordered list of named columns. -/
abbrev Table := List (String × Column)

/-- First-match association-list lookup (pandas column names are unique, so
this is plain column access `df[col]`). -/
def lookupBy {β : Type} (n : String) : List (String × β) → Option β
  | [] => none
  | (m, b) :: rest => if m = n then some b else lookupBy n rest

/-- `df[col]` / `col in df.columns`. -/
def findCol (t : Table) (n : String) : Option Column := lookupBy n t

/-- The first of two options that is `some`. -/
def firstSome {α : Type} (a b : Option α) : Option α :=
  match a with
  | some v => some v
  | none => b

/-- Lookup in a code-to-label dictionary (Python `dict` access keyed by cell
values; numeric keys compare by numeric equality as in Python). -/
def lookupVal (v : Value) : List (Value × String) → Option String
  | [] => none
  | (k, l) :: rest => if k = v then some l else lookupVal v rest

def Dtype.isNumeric : Dtype → Bool
  | .int8 | .int16 | .int64 | .float32 | .float64 => true
  | _ => false

def Dtype.isCatLike : Dtype → Bool
  | .category | .object => true
  | _ => false

/-- `DTYPE_MAPPINGS` from the source, verbatim. -/
def DTYPE_MAPPINGS : List (String × Dtype) :=
  [("NU_INSCRICAO", .int64),
   ("NU_ANO", .int16),
   ("TP_FAIXA_ETARIA", .int8),
   ("TP_SEXO", .category),
   ("TP_ESTADO_CIVIL", .category),
   ("TP_COR_RACA", .category),
   ("TP_NACIONALIDADE", .category),
   ("TP_ST_CONCLUSAO", .category),
   ("TP_ANO_CONCLUIU", .int16),
   ("TP_ESCOLA", .category),
   ("NU_NOTA_CN", .float32),
   ("NU_NOTA_CH", .float32),
   ("NU_NOTA_LC", .float32),
   ("NU_NOTA_MT", .float32),
   ("NU_NOTA_REDACAO", .float32)]

/-- `CATEGORY_MAPPINGS` from the source, verbatim. -/
def CATEGORY_MAPPINGS : List (String × List (Value × String)) :=
  [("TP_SEXO",
    [(.str "M", "Male"), (.str "F", "Female")]),
   ("TP_ESTADO_CIVIL",
    [(.num 0, "Not Informed"), (.num 1, "Single"), (.num 2, "Married"),
     (.num 3, "Divorced"), (.num 4, "Widowed")]),
   ("TP_COR_RACA",
    [(.num 0, "Not Declared"), (.num 1, "White"), (.num 2, "Black"),
     (.num 3, "Brown"), (.num 4, "Yellow"), (.num 5, "Indigenous")]),
   ("TP_NACIONALIDADE",
    [(.num 0, "Not Informed"), (.num 1, "Brazilian"),
     (.num 2, "Brazilian Naturalized"), (.num 3, "Foreign"),
     (.num 4, "Brazilian Born Abroad")]),
   ("TP_ST_CONCLUSAO",
    [(.num 1, "Completed"), (.num 2, "Completing This Year"),
     (.num 3, "Not Completed Yet"), (.num 4, "Not Completed")]),
   ("TP_ESCOLA",
    [(.num 1, "Not Informed"), (.num 2, "Public"), (.num 3, "Private")])]

/-- The bit width of a signed-integer target dtype. -/
def intWidth : Dtype → Option Nat
  | .int8 => some 8
  | .int16 => some 16
  | .int64 => some 64
  | _ => none

/-- Truncation toward zero, the C-cast semantics numpy applies when casting a
float to an integer dtype (exact on integral values). -/
def truncRat (q : ℚ) : ℤ := q.num.tdiv q.den

/-- Two's-complement wrap of an integer into the signed range of width `w`:
numpy's `astype` performs a raw C cast for integer targets, silently
wrapping out-of-range values modulo `2^w` instead of raising. -/
def wrap (w : Nat) (n : ℤ) : ℤ := (n + 2 ^ (w - 1)) % 2 ^ w - 2 ^ (w - 1)

/-- Is the cell a plain (non-missing) number? -/
def isNumCell (v : Value) : Bool :=
  match v with | .num _ => true | _ => false

/-- Is the cell a number or missing (the values a float column accepts)? -/
def isNumOrNullCell (v : Value) : Bool :=
  match v with | .num _ | .null => true | _ => false

/-- The numpy C cast of one cell to a signed integer of width `w`. -/
def castIntCell (w : Nat) (v : Value) : Value :=
  match v with
  | .num q => .num ((wrap w (truncRat q) : ℤ) : ℚ)
  | x => x

/-- `series.astype(dtype)`.  Integer targets raise (`Except.error`) when the
column holds a missing or string value ("Cannot convert non-finite values to
integer"); otherwise each value is truncated toward zero and wrapped to the
target width (numpy cast).  Float targets raise on string values and
otherwise keep the numeric values (narrowing to `float32` is modelled as
exact).  The `category` target only retags the dtype. -/
def convertColumn (d : Dtype) (c : Column) : Except Unit Column :=
  match intWidth d with
  | some w =>
    if c.cells.all isNumCell then .ok ⟨d, c.cells.map (castIntCell w)⟩
    else .error ()
  | none =>
    match d with
    | .float32 | .float64 =>
      if c.cells.all isNumOrNullCell then .ok ⟨d, c.cells⟩
      else .error ()
    | _ => .ok ⟨d, c.cells⟩

/-- Per-column body of `optimize_dtypes`: look up the target dtype and
attempt the conversion; a raised conversion error is caught and the column
left unmodified (`except` branch with a warning in the source). -/
def optimizeEntry (n : String) (c : Column) : Column :=
  match lookupBy n DTYPE_MAPPINGS with
  | none => c
  | some d =>
    match convertColumn d c with
    | .ok c' => c'
    | .error _ => c

/-- `optimize_dtypes(df)`. -/
def optimize_dtypes (t : Table) : Table :=
  t.map (fun p => (p.1, optimizeEntry p.1 p.2))

/-- `series.isnull().any()`. -/
def Column.hasNull (c : Column) : Bool := c.cells.contains Value.null

/-- `series.map(mapping).fillna('Unknown')` applied to one cell: values with
a dictionary entry become the label, all others (unmapped codes and nulls)
become the literal string `"Unknown"`. -/
def mapCell (m : List (Value × String)) (v : Value) : Value :=
  match lookupVal v m with
  | some l => .str l
  | none => .str "Unknown"

/-- Whether `series.map(mapping).fillna('Unknown')` raises on a column.  On
a category-dtype column `Series.map` maps the categories: when every
non-missing value has a dictionary entry the result is again categorical
(with the labels as its categories), and the following `fillna('Unknown')`
then raises on a column that has a missing cell, because `'Unknown'` is not
among the new categories.  `map_categories` catches the exception and leaves
the column unmodified. -/
def mapRaises (m : List (Value × String)) (c : Column) : Bool :=
  c.dtype == Dtype.category &&
    c.cells.all (fun v => v == Value.null || (lookupVal v m).isSome) &&
    c.hasNull

/-- Per-column body of `map_categories`.  On a non-category column (and on a
category column with an unmapped value, where `Categorical.map` falls back
to a plain object array) the map-plus-fill is total and produces an
object-dtype series of labels; on a category column whose values all map the
result stays categorical (labels as categories) when there is no missing
cell, and the `fillna('Unknown')` raise is caught — leaving the column
unmodified — when there is one. -/
def mapEntry (n : String) (c : Column) : Column :=
  match lookupBy n CATEGORY_MAPPINGS with
  | none => c
  | some m =>
    if mapRaises m c then c
    else if c.dtype == Dtype.category &&
        c.cells.all (fun v => v == Value.null || (lookupVal v m).isSome) then
      ⟨Dtype.category, c.cells.map (mapCell m)⟩
    else ⟨Dtype.object, c.cells.map (mapCell m)⟩

/-- `map_categories(df)`. -/
def map_categories (t : Table) : Table :=
  t.map (fun p => (p.1, mapEntry p.1 p.2))

/-- The numeric values of a column's non-missing cells, in row order. -/
def numsOf (cells : List Value) : List ℚ :=
  cells.filterMap (fun v => match v with | .num q => some q | _ => none)

/-- `series.fillna(v)`: every missing cell receives `v` (filling with `NaN`,
i.e. `Value.null`, leaves the column unchanged, as in pandas). -/
def fillCells (cells : List Value) (v : Value) : List Value :=
  cells.map (fun x => if x = Value.null then v else x)

/-- `series.mean()`: arithmetic mean of the non-missing values, `NaN` when
there are none. -/
def meanValue (c : Column) : Value :=
  let xs := numsOf c.cells
  if xs.isEmpty then .null else .num (ratMean xs)

def insertSorted (q : ℚ) : List ℚ → List ℚ
  | [] => [q]
  | x :: xs => if q ≤ x then q :: x :: xs else x :: insertSorted q xs

def sortRats (l : List ℚ) : List ℚ := l.foldr insertSorted []

/-- `series.median()`: middle of the sorted non-missing values (mean of the
two middles for an even count), `NaN` when there are none. -/
def medianValue (c : Column) : Value :=
  let xs := sortRats (numsOf c.cells)
  if xs.isEmpty then .null
  else
    let n := xs.length
    if n % 2 = 1 then .num (xs.getD (n / 2) 0)
    else .num (qdiv (qadd (xs.getD (n / 2 - 1) 0) (xs.getD (n / 2) 0)) 2)

/-- The non-missing cells of a column. -/
def nonNullCells (c : Column) : List Value :=
  c.cells.filter (fun v => v != Value.null)

/-- Lexicographic comparison of character lists by code point (Python string
ordering). -/
def listCharLt : List Char → List Char → Bool
  | [], [] => false
  | [], _ :: _ => true
  | _ :: _, [] => false
  | a :: as, b :: bs =>
    if a.toNat < b.toNat then true
    else if b.toNat < a.toNat then false
    else listCharLt as bs

/-- String comparison by code point (Python string ordering). -/
def strLt (a b : String) : Bool := listCharLt a.data b.data

/-- Ordering used by `Series.mode()` to sort the tied most-frequent values
(`mode()[0]` picks the least). -/
def vlt : Value → Value → Bool
  | .num p, .num q => decide (p < q)
  | .str s, .str t => strLt s t
  | .sqrtNum p, .sqrtNum q => decide (p < q)
  | a, b =>
    (match a with | .null => 0 | .num _ => 1 | .sqrtNum _ => 2 | .str _ => 3) <
    (match b with | .null => 0 | .num _ => 1 | .sqrtNum _ => 2 | .str _ => 3)

/-- `series.mode()[0]`: the most frequent non-missing value, ties resolved
toward the least value; `none` when the column has no non-missing value
(in which case `mode()[0]` raises an exception in the source). -/
def modeValue (c : Column) : Option Value :=
  match nonNullCells c with
  | [] => none
  | x :: _ =>
    some ((nonNullCells c).foldl (fun acc v =>
      let cv := (nonNullCells c).count v
      let ca := (nonNullCells c).count acc
      if cv > ca ∨ (cv = ca ∧ vlt v acc) then v else acc) x)

/-- The value the numeric branch imputes: the mean for strategy `'mean'`,
the median for `'median'`, and the constant `0` for any other string. -/
def numValue (s : String) (c : Column) : Value :=
  if s = "mean" then meanValue c
  else if s = "median" then medianValue c
  else .num 0

/-- Numeric branch of `handle_missing_values` for one column: applied to
columns of integer or float dtype containing a missing value. -/
def numProcess (s : String) (c : Column) : Column × Option Value :=
  if c.dtype.isNumeric && c.hasNull then
    (⟨c.dtype, fillCells c.cells (numValue s c)⟩, some (numValue s c))
  else (c, none)

/-- The numeric loop of `handle_missing_values`: processes each column of a
numeric dtype, collecting the `imputation_values` entries in column order. -/
def numericPass (s : String) : Table → Table × List (String × Value)
  | [] => ([], [])
  | (n, c) :: rest =>
    let pc := numProcess s c
    let pr := numericPass s rest
    ((n, pc.1) :: pr.1,
     (match pc.2 with | some v => [(n, v)] | none => []) ++ pr.2)

/-- Whether `series.fillna('Unknown')` raises: on a category-dtype column
with at least one missing value whose values do not include `'Unknown'`,
filling introduces a new category, which pandas rejects with a `TypeError`.
(`mode()[0]` is always an existing value, so the `'mode'` fill never
raises.) -/
def fillUnknownRaises (c : Column) : Bool :=
  c.dtype == Dtype.category && c.hasNull && !(c.cells.contains (Value.str "Unknown"))

/-- Categorical branch of `handle_missing_values` for one column: applied to
columns of `category`/`object` dtype containing a missing value; strategy
`'mode'` imputes `mode()[0]` (raising when the column is all-missing), any
other strategy string imputes the constant label `'Unknown'` — raising an
uncaught `TypeError` on a category-dtype column for which `'Unknown'` is a
new category. -/
def catProcess (s : String) (c : Column) : Except Unit (Column × Option Value) :=
  if c.dtype.isCatLike && c.hasNull then
    if s = "mode" then
      match modeValue c with
      | some v => .ok (⟨c.dtype, fillCells c.cells v⟩, some v)
      | none => .error ()
    else if fillUnknownRaises c then .error ()
    else
      .ok (⟨c.dtype, fillCells c.cells (.str "Unknown")⟩, some (.str "Unknown"))
  else .ok (c, none)

/-- Total companion of `catProcess` (identity on the error case); used only
to describe the output of a successful categorical pass. -/
def catProcessT (s : String) (c : Column) : Column × Option Value :=
  match catProcess s c with
  | .ok r => r
  | .error _ => (c, none)

/-- The categorical loop of `handle_missing_values`. -/
def catPass (s : String) : Table → Except Unit (Table × List (String × Value))
  | [] => .ok ([], [])
  | (n, c) :: rest => do
    let pc ← catProcess s c
    let pr ← catPass s rest
    .ok ((n, pc.1) :: pr.1,
         (match pc.2 with | some v => [(n, v)] | none => []) ++ pr.2)

/-- `handle_missing_values(df, numeric_strategy, categorical_strategy)`:
the numeric loop runs first, then the categorical loop; an uncaught
exception from `mode()[0]` propagates to the caller (`Except.error`). -/
def handle_missing_values (t : Table) (numeric_strategy categorical_strategy : String) :
    Except Unit (Table × List (String × Value)) := do
  let pn := numericPass numeric_strategy t
  let pc ← catPass categorical_strategy pn.1
  .ok (pc.1, pn.2 ++ pc.2)

/-- The four core score columns, in the source's fixed order. -/
def scoreCols : List String :=
  ["NU_NOTA_CN", "NU_NOTA_CH", "NU_NOTA_LC", "NU_NOTA_MT"]

/-- Count of non-missing values strictly below 0 or strictly above 1000
(`df[col].notna() & ((df[col] < 0) | (df[col] > 1000))`). -/
def invalidScoreCount (c : Column) : Nat :=
  (numsOf c.cells).countP (fun q => decide (q < 0 ∨ 1000 < q))

/-- Count of values strictly below 1 (`df[col] < 1`; missing values compare
false, as `NaN` does in pandas). -/
def invalidAgeCount (c : Column) : Nat :=
  (numsOf c.cells).countP (fun q => decide (q < 1))

/-- `f"Found {n}{suffix}"`. -/
def issueMsg (n : Nat) (suffix : String) : String :=
  ("Found " ++ toString n) ++ suffix

/-- `f"Found {n} invalid scores in {col}"`. -/
def scoreMsg (col : String) (n : Nat) : String :=
  issueMsg n (" invalid scores in " ++ col)

/-- `f"Found {n} invalid essay scores"`. -/
def essayMsg (n : Nat) : String := issueMsg n " invalid essay scores"

/-- `f"Found {n} invalid age ranges"`. -/
def ageMsg (n : Nat) : String := issueMsg n " invalid age ranges"

/-- Issues contributed by one core score column. -/
def scorePart (t : Table) (col : String) : List String :=
  match findCol t col with
  | none => []
  | some c =>
    if 0 < invalidScoreCount c then [scoreMsg col (invalidScoreCount c)] else []

/-- Issues contributed by the essay-score column. -/
def essayPart (t : Table) : List String :=
  match findCol t "NU_NOTA_REDACAO" with
  | none => []
  | some c =>
    if 0 < invalidScoreCount c then [essayMsg (invalidScoreCount c)] else []

/-- Issues contributed by the age-bracket column. -/
def agePart (t : Table) : List String :=
  match findCol t "TP_FAIXA_ETARIA" with
  | none => []
  | some c =>
    if 0 < invalidAgeCount c then [ageMsg (invalidAgeCount c)] else []

/-- State threaded through `validate_data`: the DataFrame argument and the
`issues` accumulator. -/
abbrev ValState := Table × List String

/-- One iteration of the score-range loop of `validate_data`. -/
def checkScore (col : String) (s : ValState) : ValState :=
  match findCol s.1 col with
  | none => s
  | some c =>
    (s.1,
     if 0 < invalidScoreCount c then s.2 ++ [scoreMsg col (invalidScoreCount c)]
     else s.2)

/-- The essay-score check of `validate_data`. -/
def checkEssay (s : ValState) : ValState :=
  match findCol s.1 "NU_NOTA_REDACAO" with
  | none => s
  | some c =>
    (s.1,
     if 0 < invalidScoreCount c then s.2 ++ [essayMsg (invalidScoreCount c)]
     else s.2)

/-- The age-range check of `validate_data`. -/
def checkAge (s : ValState) : ValState :=
  match findCol s.1 "TP_FAIXA_ETARIA" with
  | none => s
  | some c =>
    (s.1,
     if 0 < invalidAgeCount c then s.2 ++ [ageMsg (invalidAgeCount c)]
     else s.2)

/-- The full body of `validate_data`, as a state transformation: the four
score-column checks in order, then the essay check, then the age check. -/
def validate_run (t : Table) : ValState :=
  checkAge (checkEssay
    (checkScore "NU_NOTA_MT" (checkScore "NU_NOTA_LC"
      (checkScore "NU_NOTA_CH" (checkScore "NU_NOTA_CN" (t, []))))))

/-- `validate_data(df)`: the returned list of issues. -/
def validate_data (t : Table) : List String := (validate_run t).2

/-- The fixed subject-label map used for `BEST_SUBJECT`/`WORST_SUBJECT`. -/
def SUBJECT_LABELS : List (String × String) :=
  [("NU_NOTA_CN", "Natural Sciences"),
   ("NU_NOTA_CH", "Human Sciences"),
   ("NU_NOTA_LC", "Languages"),
   ("NU_NOTA_MT", "Mathematics")]

/-- Cell of a column at row `i` (missing for out-of-range indices; pandas
columns all share the DataFrame's length, so this padding never shows). -/
def cellAt (c : Column) (i : Nat) : Value := c.cells.getD i .null

/-- The row-`i` cells of the four score columns, tagged with their column
names, in the fixed order. -/
def scoreCellsAt (c1 c2 c3 c4 : Column) (i : Nat) : List (String × Value) :=
  [("NU_NOTA_CN", cellAt c1 i), ("NU_NOTA_CH", cellAt c2 i),
   ("NU_NOTA_LC", cellAt c3 i), ("NU_NOTA_MT", cellAt c4 i)]

/-- The non-missing score entries of row `i` (what the row-wise `mean`,
`std`, `idxmax` and `idxmin` skip-NA reductions operate on). -/
def rowPairs (c1 c2 c3 c4 : Column) (i : Nat) : List (String × ℚ) :=
  (scoreCellsAt c1 c2 c3 c4 i).filterMap
    (fun p => match p.2 with | .num q => some (p.1, q) | _ => none)

/-- Row-wise `mean(axis=1)` cell: mean of the present values, `NaN` when all
four are missing. -/
def avgOf (xs : List ℚ) : Value :=
  if xs.isEmpty then .null else .num (ratMean xs)

/-- Row-wise `std(axis=1)` cell (`ddof=1`): the sample standard deviation of
the present values, `NaN` when fewer than two are present. -/
def stdOf (xs : List ℚ) : Value :=
  if 2 ≤ xs.length then .sqrtNum (sampleVar xs) else .null

/-- `idxmax(axis=1)`: the name paired with the greatest value, the first such
name on ties; `none` for an all-missing row. -/
def firstMax : List (String × ℚ) → Option String
  | [] => none
  | p :: rest =>
    some ((rest.foldl (fun acc q => if acc.2 < q.2 then q else acc) p).1)

/-- `idxmin(axis=1)`: the name paired with the least value, the first such
name on ties; `none` for an all-missing row. -/
def firstMin : List (String × ℚ) → Option String
  | [] => none
  | p :: rest =>
    some ((rest.foldl (fun acc q => if q.2 < acc.2 then q else acc) p).1)

/-- `idxmax(axis=1).map({...})` cell. -/
def bestOf (pairs : List (String × ℚ)) : Value :=
  match firstMax pairs with
  | none => .null
  | some n =>
    match lookupBy n SUBJECT_LABELS with
    | some l => .str l
    | none => .null

/-- `idxmin(axis=1).map({...})` cell. -/
def worstOf (pairs : List (String × ℚ)) : Value :=
  match firstMin pairs with
  | none => .null
  | some n =>
    match lookupBy n SUBJECT_LABELS with
    | some l => .str l
    | none => .null

/-- `df[name] = column`: replace the column in place, or append it. -/
def setCol : Table → String → Column → Table
  | [], n, c => [(n, c)]
  | (m, c0) :: rest, n, c =>
    if m = n then (n, c) :: rest else (m, c0) :: setCol rest n c

/-- The `AVERAGE_SCORE` column: `df[score_cols].mean(axis=1)` (one row per
row of the DataFrame, whose row count is the score columns' shared length). -/
def avgColOf (c1 c2 c3 c4 : Column) : Column :=
  ⟨.float64, (List.range c1.cells.length).map (fun i =>
    avgOf ((rowPairs c1 c2 c3 c4 i).map Prod.snd))⟩

/-- The `SCORE_STD` column: `df[score_cols].std(axis=1)`. -/
def stdColOf (c1 c2 c3 c4 : Column) : Column :=
  ⟨.float64, (List.range c1.cells.length).map (fun i =>
    stdOf ((rowPairs c1 c2 c3 c4 i).map Prod.snd))⟩

/-- The `BEST_SUBJECT` column: `df[score_cols].idxmax(axis=1).map({...})`. -/
def bestColOf (c1 c2 c3 c4 : Column) : Column :=
  ⟨.object, (List.range c1.cells.length).map (fun i =>
    bestOf (rowPairs c1 c2 c3 c4 i))⟩

/-- The `WORST_SUBJECT` column: `df[score_cols].idxmin(axis=1).map({...})`. -/
def worstColOf (c1 c2 c3 c4 : Column) : Column :=
  ⟨.object, (List.range c1.cells.length).map (fun i =>
    worstOf (rowPairs c1 c2 c3 c4 i))⟩

/-- `create_derived_features(df)`: when all four score columns are present,
adds `AVERAGE_SCORE`, `SCORE_STD`, `BEST_SUBJECT` and `WORST_SUBJECT`
(row-wise over the four score columns); otherwise the table is returned
unchanged (all three blocks share the same `all(...)` guard). -/
def create_derived_features (t : Table) : Table :=
  match findCol t "NU_NOTA_CN", findCol t "NU_NOTA_CH",
        findCol t "NU_NOTA_LC", findCol t "NU_NOTA_MT" with
  | some c1, some c2, some c3, some c4 =>
    setCol (setCol (setCol (setCol t "AVERAGE_SCORE" (avgColOf c1 c2 c3 c4))
      "SCORE_STD" (stdColOf c1 c2 c3 c4)) "BEST_SUBJECT" (bestColOf c1 c2 c3 c4))
      "WORST_SUBJECT" (worstColOf c1 c2 c3 c4)
  | _, _, _, _ => t

/-! ### Specification predicates (statements of the claims). -/

/-- What a successful run of the Category Mapper produces for a column `c`
whose dictionary is `m`: a column of the same length, in which every cell
whose original value has a dictionary entry carries that entry's label,
every cell whose original value has none (nulls included) carries
`"Unknown"`, and every cell is a label of `m` or `"Unknown"` (no raw code
remains). -/
def MappedColumnSpec (m : List (Value × String)) (c cm : Column) : Prop :=
  cm.cells.length = c.cells.length ∧
  (∀ i, i < c.cells.length →
    (∀ l, lookupVal (c.cells.getD i .null) m = some l →
      cm.cells.getD i .null = .str l) ∧
    (lookupVal (c.cells.getD i .null) m = none →
      cm.cells.getD i .null = .str "Unknown")) ∧
  (∀ v ∈ cm.cells, ∃ l, v = .str l ∧ (l ∈ m.map Prod.snd ∨ l = "Unknown"))

/-! ### Bridge lemmas: the executable rational operations agree with the
field operations of `ℚ`. -/

theorem qadd_eq (a b : ℚ) : qadd a b = a + b := by
  rw [qadd]
  conv_rhs => rw [← Rat.num_divInt_den a, ← Rat.num_divInt_den b]
  rw [Rat.divInt_add_divInt _ _ (Int.natCast_ne_zero.mpr a.den_nz)
    (Int.natCast_ne_zero.mpr b.den_nz)]

theorem qmul_eq (a b : ℚ) : qmul a b = a * b := by
  rw [qmul]
  conv_rhs => rw [← Rat.num_divInt_den a, ← Rat.num_divInt_den b,
    Rat.divInt_mul_divInt']

theorem qneg_eq (a : ℚ) : qneg a = -a := by
  rw [qneg, Rat.neg_def]

theorem qinv_eq (a : ℚ) : qinv a = a⁻¹ := by
  rw [qinv, Rat.inv_def']

theorem qdiv_eq (a b : ℚ) : qdiv a b = a / b := by
  rw [qdiv, qmul_eq, qinv_eq, div_eq_mul_inv]

theorem qsub_eq (a b : ℚ) : qsub a b = a - b := by
  rw [qsub, qadd_eq, qneg_eq, sub_eq_add_neg]

theorem qsum_eq (l : List ℚ) : qsum l = l.sum := by
  induction l with
  | nil => rfl
  | cons x xs ih =>
    show qadd x (qsum xs) = _
    rw [qadd_eq, ih, List.sum_cons]

theorem ratMean_eq (xs : List ℚ) : ratMean xs = xs.sum / ((xs.length : ℕ) : ℚ) := by
  rw [ratMean, qdiv_eq, qsum_eq]

theorem sampleVar_eq (xs : List ℚ) :
    sampleVar xs =
      (xs.map (fun x => (x - ratMean xs) ^ 2)).sum / (((xs.length - 1 : ℕ)) : ℚ) := by
  have hmap : xs.map (fun x => qmul (qsub x (ratMean xs)) (qsub x (ratMean xs))) =
      xs.map (fun x => (x - ratMean xs) ^ 2) :=
    List.map_congr_left (fun x _ => by rw [qmul_eq, qsub_eq, sq])
  rw [sampleVar, hmap, qdiv_eq, qsum_eq]

/-! ### Association-list infrastructure. -/

theorem lookupBy_nil {β : Type} (n : String) : lookupBy n ([] : List (String × β)) = none := rfl

theorem lookupBy_cons {β : Type} (m n : String) (b : β) (rest : List (String × β)) :
    lookupBy n ((m, b) :: rest) = if m = n then some b else lookupBy n rest := rfl

theorem lookupBy_map {β γ : Type} (f : String → β → γ) (t : List (String × β))
    (n : String) :
    lookupBy n (t.map (fun p => (p.1, f p.1 p.2))) = (lookupBy n t).map (f n) := by
  induction t with
  | nil => rfl
  | cons p rest ih =>
    obtain ⟨m, b⟩ := p
    rw [List.map_cons, lookupBy_cons, lookupBy_cons]
    by_cases h : m = n
    · subst h
      rw [if_pos rfl, if_pos rfl, Option.map_some']
    · rw [if_neg h, if_neg h, ih]

theorem lookupBy_eq_none {β : Type} (t : List (String × β)) (n : String)
    (h : n ∉ t.map Prod.fst) : lookupBy n t = none := by
  induction t with
  | nil => rfl
  | cons p rest ih =>
    obtain ⟨m, b⟩ := p
    simp only [List.map_cons, List.mem_cons] at h
    push_neg at h
    rw [lookupBy_cons, if_neg (fun e => h.1 e.symm), ih h.2]

theorem lookupBy_append {β : Type} (a b : List (String × β)) (n : String) :
    lookupBy n (a ++ b) = firstSome (lookupBy n a) (lookupBy n b) := by
  induction a with
  | nil => rfl
  | cons p rest ih =>
    obtain ⟨m, c⟩ := p
    rw [List.cons_append, lookupBy_cons, lookupBy_cons]
    by_cases h : m = n
    · rw [if_pos h, if_pos h]
      rfl
    · rw [if_neg h, if_neg h, ih]

theorem lookupBy_filterMap_none {β V : Type} (g : String → β → Option V)
    (t : List (String × β)) (n : String) (h : n ∉ t.map Prod.fst) :
    lookupBy n (t.filterMap (fun p => (g p.1 p.2).map (fun v => (p.1, v)))) = none := by
  induction t with
  | nil => rfl
  | cons p rest ih =>
    obtain ⟨m, b⟩ := p
    simp only [List.map_cons, List.mem_cons] at h
    push_neg at h
    simp only [List.filterMap_cons]
    cases hg : g m b with
    | none => exact ih h.2
    | some v =>
      rw [Option.map_some', lookupBy_cons, if_neg (fun e => h.1 e.symm), ih h.2]

theorem lookupBy_filterMap {β V : Type} (g : String → β → Option V)
    (t : List (String × β)) (n : String) (hnd : (t.map Prod.fst).Nodup) :
    lookupBy n (t.filterMap (fun p => (g p.1 p.2).map (fun v => (p.1, v)))) =
      (lookupBy n t).bind (g n) := by
  induction t with
  | nil => rfl
  | cons p rest ih =>
    obtain ⟨m, b⟩ := p
    simp only [List.map_cons, List.nodup_cons] at hnd
    simp only [List.filterMap_cons]
    rw [lookupBy_cons]
    by_cases h : m = n
    · subst h
      rw [if_pos rfl, Option.some_bind]
      cases hg : g m b with
      | none => exact lookupBy_filterMap_none g rest m hnd.1
      | some v => rw [Option.map_some', lookupBy_cons, if_pos rfl]
    · rw [if_neg h]
      cases hg : g m b with
      | none => exact ih hnd.2
      | some v => rw [Option.map_some', lookupBy_cons, if_neg h, ih hnd.2]

theorem findCol_setCol_self (t : Table) (n : String) (c : Column) :
    findCol (setCol t n c) n = some c := by
  induction t with
  | nil =>
    show lookupBy n [(n, c)] = some c
    rw [lookupBy_cons, if_pos rfl]
  | cons p rest ih =>
    obtain ⟨m, c0⟩ := p
    show findCol (if m = n then (n, c) :: rest else (m, c0) :: setCol rest n c) n = some c
    by_cases h : m = n
    · rw [if_pos h]
      show lookupBy n ((n, c) :: rest) = some c
      rw [lookupBy_cons, if_pos rfl]
    · rw [if_neg h]
      show lookupBy n ((m, c0) :: setCol rest n c) = some c
      rw [lookupBy_cons, if_neg h]
      exact ih

theorem findCol_setCol_ne (t : Table) (n m : String) (c : Column) (h : n ≠ m) :
    findCol (setCol t n c) m = findCol t m := by
  induction t with
  | nil =>
    show lookupBy m [(n, c)] = none
    rw [lookupBy_cons, if_neg h]
    rfl
  | cons p rest ih =>
    obtain ⟨k, c0⟩ := p
    show findCol (if k = n then (n, c) :: rest else (k, c0) :: setCol rest n c) m = _
    by_cases hk : k = n
    · subst hk
      rw [if_pos rfl]
      show lookupBy m ((k, c) :: rest) = lookupBy m ((k, c0) :: rest)
      rw [lookupBy_cons, lookupBy_cons, if_neg h, if_neg h]
    · rw [if_neg hk]
      show lookupBy m ((k, c0) :: setCol rest n c) = lookupBy m ((k, c0) :: rest)
      rw [lookupBy_cons, lookupBy_cons]
      by_cases hm : k = m
      · rw [if_pos hm, if_pos hm]
      · rw [if_neg hm, if_neg hm]
        exact ih

theorem setCol_of_findCol (t : Table) (n : String) (c : Column)
    (h : findCol t n = some c) : setCol t n c = t := by
  induction t with
  | nil => exact absurd h (by rw [findCol, lookupBy_nil]; exact Option.noConfusion)
  | cons p rest ih =>
    obtain ⟨m, c0⟩ := p
    rw [findCol, lookupBy_cons] at h
    show (if m = n then (n, c) :: rest else (m, c0) :: setCol rest n c) = _
    by_cases hm : m = n
    · rw [if_pos hm]
      rw [if_pos hm] at h
      cases h
      rw [hm]
    · rw [if_neg hm]
      rw [if_neg hm] at h
      rw [ih h]

/-! ### Structure of the missing-value passes. -/

theorem Except_ok_bind {e a b : Type} (x : a) (f : a → Except e b) :
    (Except.ok x >>= f) = f x := rfl

theorem numericPass_fst (s : String) (t : Table) :
    (numericPass s t).1 = t.map (fun p => (p.1, (numProcess s p.2).1)) := by
  induction t with
  | nil => rfl
  | cons p rest ih =>
    obtain ⟨n, c⟩ := p
    show ((n, (numProcess s c).1) :: (numericPass s rest).1) = _
    rw [List.map_cons, ih]

theorem numericPass_snd (s : String) (t : Table) :
    (numericPass s t).2 =
      t.filterMap (fun p => ((numProcess s p.2).2).map (fun v => (p.1, v))) := by
  induction t with
  | nil => rfl
  | cons p rest ih =>
    obtain ⟨n, c⟩ := p
    show ((match (numProcess s c).2 with
            | some v => [(n, v)] | none => []) ++ (numericPass s rest).2) = _
    rw [List.filterMap_cons, ih]
    cases (numProcess s c).2 <;> rfl

theorem catPass_ok (s : String) (t : Table) (t' : Table) (iv : List (String × Value))
    (h : catPass s t = .ok (t', iv)) :
    t' = t.map (fun p => (p.1, (catProcessT s p.2).1)) ∧
    iv = t.filterMap (fun p => ((catProcessT s p.2).2).map (fun v => (p.1, v))) := by
  induction t generalizing t' iv with
  | nil =>
    cases h
    exact ⟨rfl, rfl⟩
  | cons p rest ih =>
    obtain ⟨n, c⟩ := p
    rw [catPass] at h
    cases hc : catProcess s c with
    | error e => rw [hc] at h; exact absurd h (by exact Except.noConfusion)
    | ok pc =>
      rw [hc] at h
      rw [Except_ok_bind] at h
      cases hr : catPass s rest with
      | error e => rw [hr] at h; exact absurd h (by exact Except.noConfusion)
      | ok pr =>
        rw [hr] at h
        rw [Except_ok_bind] at h
        cases h
        obtain ⟨h1, h2⟩ := ih pr.1 pr.2 (by rw [hr])
        constructor
        · rw [List.map_cons, ← h1]
          show (n, pc.1) :: pr.1 = (n, (catProcessT s c).1) :: pr.1
          rw [catProcessT, hc]
        · rw [List.filterMap_cons, ← h2]
          show (match pc.2 with | some v => [(n, v)] | none => []) ++ pr.2 = _
          rw [catProcessT, hc]
          cases pc.2 <;> rfl

theorem catPass_isOk (s : String) (t : Table)
    (h : ∀ p ∈ t, ∃ r, catProcess s p.2 = .ok r) :
    catPass s t = .ok (t.map (fun p => (p.1, (catProcessT s p.2).1)),
      t.filterMap (fun p => ((catProcessT s p.2).2).map (fun v => (p.1, v)))) := by
  induction t with
  | nil => rfl
  | cons p rest ih =>
    obtain ⟨n, c⟩ := p
    obtain ⟨r, hr⟩ := h (n, c) (List.mem_cons_self _ _)
    rw [catPass, hr]
    rw [Except_ok_bind]
    rw [ih (fun q hq => h q (List.mem_cons_of_mem _ hq))]
    rw [Except_ok_bind]
    rw [List.map_cons, List.filterMap_cons]
    show Except.ok ((n, r.1) :: _, (match r.2 with | some v => [(n, v)] | none => []) ++ _) = _
    rw [catProcessT, hr]
    cases r.2 <;> rfl

theorem handle_ok (t : Table) (s1 s2 : String) (t' : Table)
    (iv : List (String × Value))
    (h : handle_missing_values t s1 s2 = .ok (t', iv)) :
    ∃ iv2, catPass s2 (numericPass s1 t).1 = .ok (t', iv2) ∧
      iv = (numericPass s1 t).2 ++ iv2 := by
  rw [handle_missing_values] at h
  cases hc : catPass s2 (numericPass s1 t).1 with
  | error e => rw [hc] at h; exact absurd h (by exact Except.noConfusion)
  | ok pc =>
    obtain ⟨pt, piv⟩ := pc
    rw [hc] at h
    rw [Except_ok_bind] at h
    cases h
    exact ⟨piv, rfl, rfl⟩


/-! ### The Validator never mutates the table (C8). -/

theorem checkScore_fst (col : String) (s : ValState) : (checkScore col s).1 = s.1 := by
  rw [checkScore]
  split
  · rfl
  · rfl

theorem checkEssay_fst (s : ValState) : (checkEssay s).1 = s.1 := by
  rw [checkEssay]
  split
  · rfl
  · rfl

theorem checkAge_fst (s : ValState) : (checkAge s).1 = s.1 := by
  rw [checkAge]
  split
  · rfl
  · rfl

/-- C8: for every table, `validate_data` leaves the table completely
unchanged: the DataFrame component of the validation run's final state is the
input table, so every column (and hence every value) after the call equals
its value before the call, regardless of how many issues are found. -/
theorem C8_validate_never_mutates (t : Table) :
    (validate_run t).1 = t ∧ (∀ n, findCol (validate_run t).1 n = findCol t n) := by
  have h : (validate_run t).1 = t := by
    rw [validate_run, checkAge_fst, checkEssay_fst, checkScore_fst, checkScore_fst,
      checkScore_fst, checkScore_fst]
  exact ⟨h, fun n => by rw [h]⟩

/-! ### Type-optimizer integer overflow (C5). -/

/-- C5 (failing input): the claim says a column holding a value not
representable in the signed target width is left unmodified by the Type
Optimizer.  The code's `astype` call silently wraps out-of-range integers
modulo `2^width` instead of raising, so the guard in the `except` branch
never fires: on the one-column table with `TP_FAIXA_ETARIA = [300]` (target
`int8`), the column is converted and its value becomes `44 = 300 - 256`,
i.e. the column is modified, contradicting the claim. -/
theorem C5_int8_overflow_modifies_column :
    optimize_dtypes [("TP_FAIXA_ETARIA", ⟨Dtype.int64, [Value.num 300]⟩)] =
      [("TP_FAIXA_ETARIA", ⟨Dtype.int8, [Value.num 44]⟩)] ∧
    findCol (optimize_dtypes [("TP_FAIXA_ETARIA", ⟨Dtype.int64, [Value.num 300]⟩)])
        "TP_FAIXA_ETARIA" ≠
      findCol [("TP_FAIXA_ETARIA", ⟨Dtype.int64, [Value.num 300]⟩)] "TP_FAIXA_ETARIA" := by
  exact ⟨by decide, by decide⟩

/-! ### Idempotence of the stages (C6). -/

theorem truncRat_intCast (m : ℤ) : truncRat ((m : ℤ) : ℚ) = m := by
  rw [truncRat, Rat.num_intCast, Rat.den_intCast, Nat.cast_one, Int.tdiv_one]

theorem wrap_idem (w : Nat) (n : ℤ) : wrap w (wrap w n) = wrap w n := by
  rw [wrap, wrap, sub_add_cancel, Int.emod_emod_of_dvd _ dvd_rfl]

theorem castIntCell_idem (w : Nat) (v : Value) :
    castIntCell w (castIntCell w v) = castIntCell w v := by
  cases v with
  | num q =>
    simp only [castIntCell]
    rw [truncRat_intCast, wrap_idem]
  | null => rfl
  | str s => rfl
  | sqrtNum q => rfl

theorem isNumCell_castIntCell (w : Nat) (v : Value) (hv : isNumCell v = true) :
    isNumCell (castIntCell w v) = true := by
  cases v with
  | num q => rfl
  | null => exact Bool.noConfusion hv
  | str s => exact Bool.noConfusion hv
  | sqrtNum q => exact Bool.noConfusion hv

theorem convert_int_stable (d : Dtype) (w : Nat) (c c' : Column)
    (h : (if c.cells.all isNumCell then
            Except.ok (⟨d, c.cells.map (castIntCell w)⟩ : Column)
          else .error ()) = Except.ok c') :
    (if c'.cells.all isNumCell then
       Except.ok (⟨d, c'.cells.map (castIntCell w)⟩ : Column)
     else .error ()) = Except.ok c' := by
  by_cases hall : c.cells.all isNumCell
  · rw [if_pos hall] at h
    cases h
    have hall' : (c.cells.map (castIntCell w)).all isNumCell = true := by
      rw [List.all_eq_true]
      intro v hv
      obtain ⟨u, hu, hvu⟩ := List.mem_map.mp hv
      rw [← hvu]
      exact isNumCell_castIntCell w u (List.all_eq_true.mp hall u hu)
    show (if (⟨d, c.cells.map (castIntCell w)⟩ : Column).cells.all isNumCell then _ else _) = _
    rw [if_pos hall']
    have hmm : (c.cells.map (castIntCell w)).map (castIntCell w) =
        c.cells.map (castIntCell w) := by
      rw [List.map_map]
      exact List.map_congr_left (fun v _ => castIntCell_idem w v)
    rw [show (⟨d, c.cells.map (castIntCell w)⟩ : Column).cells =
      c.cells.map (castIntCell w) from rfl, hmm]
  · rw [if_neg hall] at h
    exact Except.noConfusion h

theorem convert_float_stable (d : Dtype) (c c' : Column)
    (h : (if c.cells.all isNumOrNullCell then Except.ok (⟨d, c.cells⟩ : Column)
          else .error ()) = Except.ok c') :
    (if c'.cells.all isNumOrNullCell then Except.ok (⟨d, c'.cells⟩ : Column)
     else .error ()) = Except.ok c' := by
  by_cases hall : c.cells.all isNumOrNullCell
  · rw [if_pos hall] at h
    cases h
    show (if c.cells.all isNumOrNullCell then _ else _) = _
    rw [if_pos hall]
  · rw [if_neg hall] at h
    exact Except.noConfusion h

theorem convert_stable (d : Dtype) (c c' : Column)
    (h : convertColumn d c = .ok c') : convertColumn d c' = .ok c' := by
  cases d with
  | int8 =>
    simp only [convertColumn, intWidth] at h ⊢
    exact convert_int_stable _ _ c c' h
  | int16 =>
    simp only [convertColumn, intWidth] at h ⊢
    exact convert_int_stable _ _ c c' h
  | int64 =>
    simp only [convertColumn, intWidth] at h ⊢
    exact convert_int_stable _ _ c c' h
  | float32 =>
    simp only [convertColumn, intWidth] at h ⊢
    exact convert_float_stable _ c c' h
  | float64 =>
    simp only [convertColumn, intWidth] at h ⊢
    exact convert_float_stable _ c c' h
  | category =>
    simp only [convertColumn, intWidth] at h ⊢
    cases h
    rfl
  | object =>
    simp only [convertColumn, intWidth] at h ⊢
    cases h
    rfl

theorem optimizeEntry_idem (n : String) (c : Column) :
    optimizeEntry n (optimizeEntry n c) = optimizeEntry n c := by
  cases hd : lookupBy n DTYPE_MAPPINGS with
  | none => simp only [optimizeEntry, hd]
  | some d =>
    cases hc : convertColumn d c with
    | error e => simp only [optimizeEntry, hd, hc]
    | ok c' => simp only [optimizeEntry, hd, hc, convert_stable d c c' hc]

theorem optimize_dtypes_idem (t : Table) :
    optimize_dtypes (optimize_dtypes t) = optimize_dtypes t := by
  simp only [optimize_dtypes, List.map_map]
  apply List.map_congr_left
  intro p _
  show (p.1, optimizeEntry p.1 (optimizeEntry p.1 p.2)) = (p.1, optimizeEntry p.1 p.2)
  rw [optimizeEntry_idem]

theorem create_derived_none (t : Table)
    (h : findCol t "NU_NOTA_CN" = none ∨ findCol t "NU_NOTA_CH" = none ∨
         findCol t "NU_NOTA_LC" = none ∨ findCol t "NU_NOTA_MT" = none) :
    create_derived_features t = t := by
  rcases h with h | h | h | h
  · cases h1 : findCol t "NU_NOTA_CN" with
    | none => simp only [create_derived_features, h1]
    | some c => rw [h1] at h; exact Option.noConfusion h
  · cases h1 : findCol t "NU_NOTA_CN" with
    | none => simp only [create_derived_features, h1]
    | some c1 =>
      cases h2 : findCol t "NU_NOTA_CH" with
      | none => simp only [create_derived_features, h1, h2]
      | some c => rw [h2] at h; exact Option.noConfusion h
  · cases h1 : findCol t "NU_NOTA_CN" with
    | none => simp only [create_derived_features, h1]
    | some c1 =>
      cases h2 : findCol t "NU_NOTA_CH" with
      | none => simp only [create_derived_features, h1, h2]
      | some c2 =>
        cases h3 : findCol t "NU_NOTA_LC" with
        | none => simp only [create_derived_features, h1, h2, h3]
        | some c => rw [h3] at h; exact Option.noConfusion h
  · cases h1 : findCol t "NU_NOTA_CN" with
    | none => simp only [create_derived_features, h1]
    | some c1 =>
      cases h2 : findCol t "NU_NOTA_CH" with
      | none => simp only [create_derived_features, h1, h2]
      | some c2 =>
        cases h3 : findCol t "NU_NOTA_LC" with
        | none => simp only [create_derived_features, h1, h2, h3]
        | some c3 =>
          cases h4 : findCol t "NU_NOTA_MT" with
          | none => simp only [create_derived_features, h1, h2, h3, h4]
          | some c => rw [h4] at h; exact Option.noConfusion h

theorem create_derived_eq (t : Table) (c1 c2 c3 c4 : Column)
    (h1 : findCol t "NU_NOTA_CN" = some c1) (h2 : findCol t "NU_NOTA_CH" = some c2)
    (h3 : findCol t "NU_NOTA_LC" = some c3) (h4 : findCol t "NU_NOTA_MT" = some c4) :
    create_derived_features t =
      setCol (setCol (setCol (setCol t "AVERAGE_SCORE" (avgColOf c1 c2 c3 c4))
        "SCORE_STD" (stdColOf c1 c2 c3 c4)) "BEST_SUBJECT" (bestColOf c1 c2 c3 c4))
        "WORST_SUBJECT" (worstColOf c1 c2 c3 c4) := by
  simp only [create_derived_features, h1, h2, h3, h4]

theorem findCol_derived_chain (t : Table) (ac sc bc wc : Column) (n : String)
    (hA : n ≠ "AVERAGE_SCORE") (hS : n ≠ "SCORE_STD") (hB : n ≠ "BEST_SUBJECT")
    (hW : n ≠ "WORST_SUBJECT") :
    findCol (setCol (setCol (setCol (setCol t "AVERAGE_SCORE" ac)
        "SCORE_STD" sc) "BEST_SUBJECT" bc) "WORST_SUBJECT" wc) n = findCol t n := by
  rw [findCol_setCol_ne _ _ _ _ (fun e => hW e.symm),
      findCol_setCol_ne _ _ _ _ (fun e => hB e.symm),
      findCol_setCol_ne _ _ _ _ (fun e => hS e.symm),
      findCol_setCol_ne _ _ _ _ (fun e => hA e.symm)]

theorem setCol_chain_collapse (u : Table) (ac sc bc wc : Column)
    (hA : findCol u "AVERAGE_SCORE" = some ac) (hS : findCol u "SCORE_STD" = some sc)
    (hB : findCol u "BEST_SUBJECT" = some bc) (hW : findCol u "WORST_SUBJECT" = some wc) :
    setCol (setCol (setCol (setCol u "AVERAGE_SCORE" ac) "SCORE_STD" sc)
      "BEST_SUBJECT" bc) "WORST_SUBJECT" wc = u := by
  rw [setCol_of_findCol _ _ _ hA, setCol_of_findCol _ _ _ hS,
      setCol_of_findCol _ _ _ hB, setCol_of_findCol _ _ _ hW]

theorem create_derived_idem (t : Table) :
    create_derived_features (create_derived_features t) = create_derived_features t := by
  cases h1 : findCol t "NU_NOTA_CN" with
  | none =>
    have ht := create_derived_none t (Or.inl h1)
    rw [ht, ht]
  | some c1 =>
  cases h2 : findCol t "NU_NOTA_CH" with
  | none =>
    have ht := create_derived_none t (Or.inr (Or.inl h2))
    rw [ht, ht]
  | some c2 =>
  cases h3 : findCol t "NU_NOTA_LC" with
  | none =>
    have ht := create_derived_none t (Or.inr (Or.inr (Or.inl h3)))
    rw [ht, ht]
  | some c3 =>
  cases h4 : findCol t "NU_NOTA_MT" with
  | none =>
    have ht := create_derived_none t (Or.inr (Or.inr (Or.inr h4)))
    rw [ht, ht]
  | some c4 =>
    have e := create_derived_eq t c1 c2 c3 c4 h1 h2 h3 h4
    have hCN : findCol (create_derived_features t) "NU_NOTA_CN" = some c1 := by
      rw [e, findCol_derived_chain _ _ _ _ _ _ (by decide) (by decide) (by decide) (by decide)]
      exact h1
    have hCH : findCol (create_derived_features t) "NU_NOTA_CH" = some c2 := by
      rw [e, findCol_derived_chain _ _ _ _ _ _ (by decide) (by decide) (by decide) (by decide)]
      exact h2
    have hLC : findCol (create_derived_features t) "NU_NOTA_LC" = some c3 := by
      rw [e, findCol_derived_chain _ _ _ _ _ _ (by decide) (by decide) (by decide) (by decide)]
      exact h3
    have hMT : findCol (create_derived_features t) "NU_NOTA_MT" = some c4 := by
      rw [e, findCol_derived_chain _ _ _ _ _ _ (by decide) (by decide) (by decide) (by decide)]
      exact h4
    rw [create_derived_eq (create_derived_features t) c1 c2 c3 c4 hCN hCH hLC hMT]
    apply setCol_chain_collapse
    · rw [e, findCol_setCol_ne _ _ _ _ (by decide), findCol_setCol_ne _ _ _ _ (by decide),
          findCol_setCol_ne _ _ _ _ (by decide), findCol_setCol_self]
    · rw [e, findCol_setCol_ne _ _ _ _ (by decide), findCol_setCol_ne _ _ _ _ (by decide),
          findCol_setCol_self]
    · rw [e, findCol_setCol_ne _ _ _ _ (by decide), findCol_setCol_self]
    · rw [e, findCol_setCol_self]

/-- C6 (counterexample): the Category Mapper is not idempotent.  On the
one-column table with `TP_SEXO = ['M']` the first run maps the code to the
label `Male`; a second run finds `Male` absent from the code dictionary and
maps it to `Unknown`, so running the stage twice differs from running it
once. -/
theorem C6_map_categories_not_idempotent :
    map_categories (map_categories [("TP_SEXO", ⟨Dtype.category, [Value.str "M"]⟩)]) ≠
      map_categories [("TP_SEXO", ⟨Dtype.category, [Value.str "M"]⟩)] := by
  decide

/-- C6 (amended): of the stages other than the Missing-Value Handler, the
Type Optimizer and the Derived-Feature Builder are idempotent — running
either a second time on its own output yields the same table — but the
Category Mapper is not (rerunning it sends already-mapped labels, which are
not keys of the code dictionaries, to `Unknown`); the Validator computes no
table at all (see C8). -/
theorem C6_optimizer_and_derived_idempotent :
    (∀ t : Table, optimize_dtypes (optimize_dtypes t) = optimize_dtypes t) ∧
    (∀ t : Table, create_derived_features (create_derived_features t) =
      create_derived_features t) :=
  ⟨optimize_dtypes_idem, create_derived_idem⟩

/-! ### The Category Mapper is total onto labels (C1). -/

theorem lookupVal_mem (v : Value) (m : List (Value × String)) (l : String)
    (h : lookupVal v m = some l) : l ∈ m.map Prod.snd := by
  induction m with
  | nil => exact Option.noConfusion h
  | cons p rest ih =>
    obtain ⟨k, lab⟩ := p
    rw [lookupVal] at h
    by_cases hk : k = v
    · rw [if_pos hk] at h
      cases h
      exact List.mem_cons_self _ _
    · rw [if_neg hk] at h
      exact List.mem_cons_of_mem _ (ih h)

theorem null_not_key (col : String) (m : List (Value × String))
    (hm : lookupBy col CATEGORY_MAPPINGS = some m) : lookupVal Value.null m = none := by
  simp only [CATEGORY_MAPPINGS, lookupBy] at hm
  split at hm
  · cases hm; decide
  · split at hm
    · cases hm; decide
    · split at hm
      · cases hm; decide
      · split at hm
        · cases hm; decide
        · split at hm
          · cases hm; decide
          · split at hm
            · cases hm; decide
            · exact Option.noConfusion hm

/-- A column whose cells are `map (mapCell m)` satisfies the mapped-column
specification; shared by both successful branches of `mapEntry`. -/
theorem mappedCells_spec (m : List (Value × String)) (c : Column) (d : Dtype)
    (hnk : lookupVal Value.null m = none) :
    MappedColumnSpec m c ⟨d, c.cells.map (mapCell m)⟩ ∧
    (∀ i, i < c.cells.length → c.cells.getD i .null = .null →
      (⟨d, c.cells.map (mapCell m)⟩ : Column).cells.getD i .null = .str "Unknown") := by
  have hmapi : ∀ i, i < c.cells.length →
      (⟨d, c.cells.map (mapCell m)⟩ : Column).cells.getD i .null =
        mapCell m (c.cells.getD i .null) := by
    intro i hi
    have ha := List.getElem?_eq_getElem hi
    show (c.cells.map (mapCell m)).getD i .null = _
    rw [List.getD_eq_getElem?_getD, List.getD_eq_getElem?_getD, List.getElem?_map, ha]
    rfl
  refine ⟨⟨List.length_map _ _, ?_, ?_⟩, ?_⟩
  · intro i hi
    constructor
    · intro l hl
      rw [hmapi i hi, mapCell, hl]
    · intro hl
      rw [hmapi i hi, mapCell, hl]
  · intro v hv
    obtain ⟨u, hu, huv⟩ := List.mem_map.mp hv
    rw [← huv, mapCell]
    cases hlv : lookupVal u m with
    | some l => exact ⟨l, rfl, Or.inl (lookupVal_mem u m l hlv)⟩
    | none => exact ⟨"Unknown", rfl, Or.inr rfl⟩
  · intro i hi hnull
    rw [hmapi i hi, hnull, mapCell, hnk]

/-- C1 (counterexample): on the category-dtype column
`TP_SEXO = category['M', NaN]` — exactly what the Type Optimizer produces —
every value has a dictionary entry, so `Series.map` returns a categorical of
labels and `fillna('Unknown')` raises on the new category; `map_categories`
catches the exception and leaves the column unmodified, so the raw code
`'M'` survives, contradicting the claim that after the mapper no raw code
value remains. -/
theorem C1_categorical_fillna_counterexample :
    lookupBy "TP_SEXO" CATEGORY_MAPPINGS =
      some [(Value.str "M", "Male"), (Value.str "F", "Female")] ∧
    map_categories [("TP_SEXO", ⟨Dtype.category, [Value.str "M", Value.null]⟩)] =
      [("TP_SEXO", ⟨Dtype.category, [Value.str "M", Value.null]⟩)] ∧
    Value.str "M" ∈ ([Value.str "M", Value.null] : List Value) ∧
    (∀ l : String, Value.str "M" = Value.str l →
      ¬(l ∈ ["Male", "Female"] ∨ l = "Unknown")) := by
  refine ⟨by decide, by decide, by decide, ?_⟩
  intro l hl
  injection hl with h
  subst h
  decide

/-- C1 (amended): for every table and every column `col` with a dictionary
`m` in `CATEGORY_MAPPINGS` present in the table, `map_categories` is total
onto labels except on its live error path.  When the column is
category-dtype with every value mapped and a missing cell present
(`mapRaises`), the `fillna('Unknown')` raise is caught and the column is
left unmodified, raw codes surviving.  In every other case the output column
satisfies `MappedColumnSpec` — every mapped value becomes its label, every
unmapped value (nulls included) becomes `"Unknown"`, and no raw code remains
— and its dtype is `category` exactly when the input was category-dtype with
every value mapped, `object` otherwise. -/
theorem C1_map_categories_amended (t : Table) (col : String)
    (m : List (Value × String)) (hm : lookupBy col CATEGORY_MAPPINGS = some m)
    (c : Column) (hc : findCol t col = some c) :
    (mapRaises m c = true → findCol (map_categories t) col = some c) ∧
    (mapRaises m c = false →
      ∃ cm, findCol (map_categories t) col = some cm ∧ MappedColumnSpec m c cm ∧
        (∀ i, i < c.cells.length → c.cells.getD i .null = .null →
          cm.cells.getD i .null = .str "Unknown") ∧
        (cm.dtype = Dtype.category ↔
          (c.dtype == Dtype.category &&
            c.cells.all (fun v => v == Value.null || (lookupVal v m).isSome)) = true) ∧
        (cm.dtype = Dtype.category ∨ cm.dtype = Dtype.object)) := by
  have hmap : findCol (map_categories t) col = some (mapEntry col c) := by
    show lookupBy col (t.map (fun p => (p.1, mapEntry p.1 p.2))) = _
    rw [lookupBy_map]
    rw [show lookupBy col t = some c from hc]
    rfl
  constructor
  · intro hr
    have hentry : mapEntry col c = c := by
      rw [mapEntry, hm]
      exact if_pos hr
    rw [hmap, hentry]
  · intro hr
    have hnk := null_not_key col m hm
    have hentry0 : mapEntry col c =
        (if mapRaises m c = true then c
         else if (c.dtype == Dtype.category &&
             c.cells.all fun v => v == Value.null || (lookupVal v m).isSome) = true then
           (⟨Dtype.category, c.cells.map (mapCell m)⟩ : Column)
         else ⟨Dtype.object, c.cells.map (mapCell m)⟩) := by
      rw [mapEntry, hm]
    by_cases hcond : (c.dtype == Dtype.category &&
        c.cells.all (fun v => v == Value.null || (lookupVal v m).isSome)) = true
    · have hentry : mapEntry col c = ⟨Dtype.category, c.cells.map (mapCell m)⟩ := by
        rw [hentry0, if_neg (by rw [hr]; exact Bool.false_ne_true), if_pos hcond]
      obtain ⟨hspec, hnulls⟩ := mappedCells_spec m c Dtype.category hnk
      refine ⟨mapEntry col c, hmap, ?_, ?_, ?_, ?_⟩
      · rw [hentry]
        exact hspec
      · rw [hentry]
        exact hnulls
      · rw [hentry]
        exact ⟨fun _ => hcond, fun _ => rfl⟩
      · rw [hentry]
        exact Or.inl rfl
    · have hcondf : (c.dtype == Dtype.category &&
          c.cells.all (fun v => v == Value.null || (lookupVal v m).isSome)) = false := by
        cases hb : (c.dtype == Dtype.category &&
            c.cells.all (fun v => v == Value.null || (lookupVal v m).isSome)) with
        | false => rfl
        | true => exact absurd hb hcond
      have hentry : mapEntry col c = ⟨Dtype.object, c.cells.map (mapCell m)⟩ := by
        rw [hentry0, if_neg (by rw [hr]; exact Bool.false_ne_true),
          if_neg (by rw [hcondf]; exact Bool.false_ne_true)]
      obtain ⟨hspec, hnulls⟩ := mappedCells_spec m c Dtype.object hnk
      refine ⟨mapEntry col c, hmap, ?_, ?_, ?_, ?_⟩
      · rw [hentry]
        exact hspec
      · rw [hentry]
        exact hnulls
      · rw [hentry]
        constructor
        · intro hdt
          exact absurd hdt (fun hh => Dtype.noConfusion hh)
        · intro hct
          exact absurd hct hcond
      · rw [hentry]
        exact Or.inr rfl

/-- C1 (witness): the amended theorem applied to the object-dtype column
`TP_SEXO = ['M', NaN, 7]`, on which the map-plus-fill is total: `'M'`
becomes `'Male'`, the missing cell and the unmapped code `7` become
`'Unknown'`. -/
theorem C1_witness :
    lookupBy "TP_SEXO" CATEGORY_MAPPINGS =
      some [(Value.str "M", "Male"), (Value.str "F", "Female")] ∧
    findCol [("TP_SEXO", (⟨Dtype.object, [Value.str "M", Value.null, Value.num 7]⟩ : Column))]
      "TP_SEXO" = some ⟨Dtype.object, [Value.str "M", Value.null, Value.num 7]⟩ ∧
    mapRaises [(Value.str "M", "Male"), (Value.str "F", "Female")]
      ⟨Dtype.object, [Value.str "M", Value.null, Value.num 7]⟩ = false ∧
    (∃ cm, findCol (map_categories
        [("TP_SEXO", (⟨Dtype.object, [Value.str "M", Value.null, Value.num 7]⟩ : Column))])
        "TP_SEXO" = some cm ∧
      MappedColumnSpec [(Value.str "M", "Male"), (Value.str "F", "Female")]
        ⟨Dtype.object, [Value.str "M", Value.null, Value.num 7]⟩ cm ∧
      (∀ i, i < (⟨Dtype.object, [Value.str "M", Value.null, Value.num 7]⟩ :
          Column).cells.length →
        (⟨Dtype.object, [Value.str "M", Value.null, Value.num 7]⟩ :
          Column).cells.getD i .null = .null →
        cm.cells.getD i .null = .str "Unknown") ∧
      (cm.dtype = Dtype.category ↔
        ((⟨Dtype.object, [Value.str "M", Value.null, Value.num 7]⟩ : Column).dtype ==
            Dtype.category &&
          (⟨Dtype.object, [Value.str "M", Value.null, Value.num 7]⟩ :
            Column).cells.all (fun v => v == Value.null ||
              (lookupVal v [(Value.str "M", "Male"), (Value.str "F", "Female")]).isSome)) =
          true) ∧
      (cm.dtype = Dtype.category ∨ cm.dtype = Dtype.object)) :=
  ⟨rfl, rfl, by decide,
   (C1_map_categories_amended
      [("TP_SEXO", (⟨Dtype.object, [Value.str "M", Value.null, Value.num 7]⟩ : Column))]
      "TP_SEXO" [(Value.str "M", "Male"), (Value.str "F", "Female")] rfl
      ⟨Dtype.object, [Value.str "M", Value.null, Value.num 7]⟩ rfl).2 (by decide)⟩

/-! ### Strategy congruences: unrecognized strategy names fall through to
the default branches (used by C10, stated later once the handler lemmas are
available). -/

theorem numValue_default (s : String) (c : Column)
    (h1 : s ≠ "mean") (h2 : s ≠ "median") : numValue s c = numValue "zero" c := by
  rw [numValue, numValue, if_neg h1, if_neg h2,
    if_neg (show ("zero" : String) ≠ "mean" by decide),
    if_neg (show ("zero" : String) ≠ "median" by decide)]

theorem numProcess_default (s : String) (c : Column)
    (h1 : s ≠ "mean") (h2 : s ≠ "median") : numProcess s c = numProcess "zero" c := by
  rw [numProcess, numProcess, numValue_default s c h1 h2]

theorem catProcess_default (s : String) (c : Column)
    (h : s ≠ "mode") : catProcess s c = catProcess "unknown" c := by
  rw [catProcess, catProcess, if_neg h,
    if_neg (show ("unknown" : String) ≠ "mode" by decide)]

theorem numericPass_congr (s s' : String) (t : Table)
    (h : ∀ c, numProcess s c = numProcess s' c) :
    numericPass s t = numericPass s' t := by
  induction t with
  | nil => rfl
  | cons p rest ih =>
    obtain ⟨n, c⟩ := p
    show ((n, (numProcess s c).1) :: (numericPass s rest).1,
          (match (numProcess s c).2 with | some v => [(n, v)] | none => []) ++
            (numericPass s rest).2) = _
    rw [h c, ih]
    rfl

theorem catPass_congr (s s' : String) (t : Table)
    (h : ∀ c, catProcess s c = catProcess s' c) :
    catPass s t = catPass s' t := by
  induction t with
  | nil => rfl
  | cons p rest ih =>
    obtain ⟨n, c⟩ := p
    rw [catPass, catPass, h c, ih]

/-! ### All-or-nothing derived features (C3). -/

/-- C3: the Derived-Feature Builder is all-or-nothing and never raises: if
any of the four core score columns is absent the table is returned unchanged
(in particular none of the four derived columns is added), and if all four
are present all four derived columns exist in the output. -/
theorem C3_all_or_nothing (t : Table) :
    ((findCol t "NU_NOTA_CN" = none ∨ findCol t "NU_NOTA_CH" = none ∨
      findCol t "NU_NOTA_LC" = none ∨ findCol t "NU_NOTA_MT" = none) →
      create_derived_features t = t) ∧
    (∀ c1 c2 c3 c4,
      findCol t "NU_NOTA_CN" = some c1 → findCol t "NU_NOTA_CH" = some c2 →
      findCol t "NU_NOTA_LC" = some c3 → findCol t "NU_NOTA_MT" = some c4 →
      findCol (create_derived_features t) "AVERAGE_SCORE" = some (avgColOf c1 c2 c3 c4) ∧
      findCol (create_derived_features t) "SCORE_STD" = some (stdColOf c1 c2 c3 c4) ∧
      findCol (create_derived_features t) "BEST_SUBJECT" = some (bestColOf c1 c2 c3 c4) ∧
      findCol (create_derived_features t) "WORST_SUBJECT" = some (worstColOf c1 c2 c3 c4)) := by
  refine ⟨create_derived_none t, ?_⟩
  intro c1 c2 c3 c4 h1 h2 h3 h4
  have e := create_derived_eq t c1 c2 c3 c4 h1 h2 h3 h4
  refine ⟨?_, ?_, ?_, ?_⟩
  · rw [e, findCol_setCol_ne _ _ _ _ (by decide), findCol_setCol_ne _ _ _ _ (by decide),
        findCol_setCol_ne _ _ _ _ (by decide), findCol_setCol_self]
  · rw [e, findCol_setCol_ne _ _ _ _ (by decide), findCol_setCol_ne _ _ _ _ (by decide),
        findCol_setCol_self]
  · rw [e, findCol_setCol_ne _ _ _ _ (by decide), findCol_setCol_self]
  · rw [e, findCol_setCol_self]

/-- C3 (witness): the theorem applied to a table missing `NU_NOTA_MT` (no
derived columns, table unchanged) and to a table with all four score
columns (all four derived columns present). -/
theorem C3_witness :
    (create_derived_features
        [("NU_NOTA_CN", (⟨Dtype.float32, [Value.num 500]⟩ : Column)),
         ("NU_NOTA_CH", (⟨Dtype.float32, [Value.num 600]⟩ : Column)),
         ("NU_NOTA_LC", (⟨Dtype.float32, [Value.num 700]⟩ : Column))] =
      [("NU_NOTA_CN", (⟨Dtype.float32, [Value.num 500]⟩ : Column)),
       ("NU_NOTA_CH", (⟨Dtype.float32, [Value.num 600]⟩ : Column)),
       ("NU_NOTA_LC", (⟨Dtype.float32, [Value.num 700]⟩ : Column))]) ∧
    (findCol (create_derived_features
        [("NU_NOTA_CN", (⟨Dtype.float32, [Value.num 500]⟩ : Column)),
         ("NU_NOTA_CH", (⟨Dtype.float32, [Value.num 600]⟩ : Column)),
         ("NU_NOTA_LC", (⟨Dtype.float32, [Value.num 700]⟩ : Column)),
         ("NU_NOTA_MT", (⟨Dtype.float32, [Value.num 800]⟩ : Column))])
        "AVERAGE_SCORE" =
      some (avgColOf ⟨Dtype.float32, [Value.num 500]⟩ ⟨Dtype.float32, [Value.num 600]⟩
        ⟨Dtype.float32, [Value.num 700]⟩ ⟨Dtype.float32, [Value.num 800]⟩)) :=
  ⟨(C3_all_or_nothing _).1 (Or.inr (Or.inr (Or.inr rfl))), by
    have h := (C3_all_or_nothing
        [("NU_NOTA_CN", (⟨Dtype.float32, [Value.num 500]⟩ : Column)),
         ("NU_NOTA_CH", (⟨Dtype.float32, [Value.num 600]⟩ : Column)),
         ("NU_NOTA_LC", (⟨Dtype.float32, [Value.num 700]⟩ : Column)),
         ("NU_NOTA_MT", (⟨Dtype.float32, [Value.num 800]⟩ : Column))]).2
      ⟨Dtype.float32, [Value.num 500]⟩ ⟨Dtype.float32, [Value.num 600]⟩
      ⟨Dtype.float32, [Value.num 700]⟩ ⟨Dtype.float32, [Value.num 800]⟩
      rfl rfl rfl rfl
    exact h.1⟩

/-! ### Values and columns of the Missing-Value Handler. -/

theorem hasNull_iff (c : Column) : c.hasNull = true ↔ Value.null ∈ c.cells := by
  rw [Column.hasNull]
  exact List.elem_iff

theorem hasNull_false_iff (c : Column) : c.hasNull = false ↔ Value.null ∉ c.cells := by
  constructor
  · intro h hmem
    rw [← hasNull_iff] at hmem
    rw [h] at hmem
    exact Bool.noConfusion hmem
  · intro h
    cases hb : c.hasNull with
    | false => rfl
    | true => exact absurd ((hasNull_iff c).mp hb) h

theorem fillCells_no_null (cells : List Value) (v : Value) (hv : v ≠ .null) :
    Value.null ∉ fillCells cells v := by
  intro hmem
  obtain ⟨u, _, hu⟩ := List.mem_map.mp hmem
  by_cases h : u = Value.null
  · rw [if_pos h] at hu
    exact hv hu
  · rw [if_neg h] at hu
    exact h hu

theorem meanValue_num (c : Column) (h : numsOf c.cells ≠ []) :
    meanValue c = .num (ratMean (numsOf c.cells)) := by
  rw [meanValue, if_neg (by rwa [List.isEmpty_iff] )]

theorem sortRats_length (l : List ℚ) : (sortRats l).length = l.length := by
  have hins : ∀ (q : ℚ) (xs : List ℚ), (insertSorted q xs).length = xs.length + 1 := by
    intro q xs
    induction xs with
    | nil => rfl
    | cons x rest ih =>
      rw [insertSorted]
      by_cases h : q ≤ x
      · rw [if_pos h]
        rfl
      · rw [if_neg h]
        simp [ih]
  induction l with
  | nil => rfl
  | cons x rest ih =>
    show (insertSorted x (sortRats rest)).length = _
    rw [hins, ih, List.length_cons]

theorem medianValue_ne_null (c : Column) (h : numsOf c.cells ≠ []) :
    medianValue c ≠ .null := by
  simp only [medianValue]
  have hlen : (sortRats (numsOf c.cells)).length ≠ 0 := by
    rw [sortRats_length]
    exact fun h0 => h (List.length_eq_zero.mp h0)
  have hemp : (sortRats (numsOf c.cells)).isEmpty = false := by
    cases he : sortRats (numsOf c.cells) with
    | nil => exact absurd (by rw [he]; rfl) hlen
    | cons a l => rfl
  rw [hemp]
  rw [if_neg (by exact Bool.false_ne_true)]
  by_cases hodd : (sortRats (numsOf c.cells)).length % 2 = 1
  · rw [if_pos hodd]
    exact fun hh => Value.noConfusion hh
  · rw [if_neg hodd]
    exact fun hh => Value.noConfusion hh

theorem foldl_pick_mem (g : Value → Value → Value)
    (hg : ∀ a u, g a u = a ∨ g a u = u) :
    ∀ (l : List Value) (acc : Value), l.foldl g acc ∈ acc :: l := by
  intro l
  induction l with
  | nil => exact fun acc => List.mem_singleton.mpr rfl
  | cons x xs ih =>
    intro acc
    show (xs.foldl g (g acc x)) ∈ acc :: x :: xs
    rcases List.mem_cons.mp (ih (g acc x)) with h1 | h1
    · rw [h1]
      cases hg acc x with
      | inl hga =>
        rw [hga]
        exact List.mem_cons.mpr (Or.inl rfl)
      | inr hgu =>
        rw [hgu]
        exact List.mem_cons.mpr (Or.inr (List.mem_cons.mpr (Or.inl rfl)))
    · exact List.mem_cons.mpr (Or.inr (List.mem_cons.mpr (Or.inr h1)))

theorem foldl_pick_mem_self (g : Value → Value → Value)
    (hg : ∀ a u, g a u = a ∨ g a u = u) (x : Value) (l : List Value) :
    (x :: l).foldl g x ∈ x :: l := by
  rcases List.mem_cons.mp (foldl_pick_mem g hg (x :: l) x) with h1 | h1
  · rw [h1]
    exact List.mem_cons_self _ _
  · exact h1

theorem modeValue_mem (c : Column) (v : Value) (h : modeValue c = some v) :
    v ∈ nonNullCells c := by
  cases hnc : nonNullCells c with
  | nil =>
    rw [modeValue, hnc] at h
    exact Option.noConfusion h
  | cons x l =>
    simp only [modeValue, hnc] at h
    cases h
    exact foldl_pick_mem_self
      (fun acc u =>
        if List.count u (x :: l) > List.count acc (x :: l) ∨
            (List.count u (x :: l) = List.count acc (x :: l) ∧ vlt u acc = true) then u
        else acc)
      (fun a u => by
        by_cases hco : (List.count u (x :: l) > List.count a (x :: l) ∨
            (List.count u (x :: l) = List.count a (x :: l) ∧ vlt u a = true))
        · exact Or.inr (if_pos hco)
        · exact Or.inl (if_neg hco))
      x l

theorem nonNull_ne_null (c : Column) (v : Value) (h : v ∈ nonNullCells c) :
    v ≠ .null := by
  have := (List.mem_filter.mp h).2
  exact bne_iff_ne.mp this

theorem dtype_class_total (d : Dtype) : d.isNumeric = true ∨ d.isCatLike = true := by
  cases d <;> first | exact Or.inl rfl | exact Or.inr rfl

theorem dtype_not_both (d : Dtype) : ¬(d.isNumeric = true ∧ d.isCatLike = true) := by
  cases d <;> decide

theorem lookupBy_mem {b : Type} (t : List (String × b)) (n : String) (v : b)
    (h : lookupBy n t = some v) : (n, v) ∈ t := by
  induction t with
  | nil => exact Option.noConfusion h
  | cons p rest ih =>
    obtain ⟨m, c⟩ := p
    rw [lookupBy_cons] at h
    by_cases hm : m = n
    · rw [if_pos hm] at h
      cases h
      rw [hm]
      exact List.mem_cons_self _ _
    · rw [if_neg hm] at h
      exact List.mem_cons_of_mem _ (ih h)

theorem map_entries_names {b g : Type} (f : String → b → g) (t : List (String × b)) :
    (t.map (fun p => (p.1, f p.1 p.2))).map Prod.fst = t.map Prod.fst := by
  rw [List.map_map]
  exact List.map_congr_left (fun p _ => rfl)

theorem catPass_ok_entries (s : String) (t : Table) (t' : Table)
    (iv : List (String × Value)) (h : catPass s t = .ok (t', iv)) :
    ∀ p ∈ t, ∃ r, catProcess s p.2 = .ok r := by
  induction t generalizing t' iv with
  | nil => exact fun p hp => absurd hp (List.not_mem_nil p)
  | cons q rest ih =>
    obtain ⟨n, c⟩ := q
    rw [catPass] at h
    cases hc : catProcess s c with
    | error e =>
      rw [hc] at h
      exact absurd h (by exact Except.noConfusion)
    | ok pc =>
      rw [hc] at h
      rw [Except_ok_bind] at h
      cases hr : catPass s rest with
      | error e =>
        rw [hr] at h
        exact absurd h (by exact Except.noConfusion)
      | ok pr =>
        rw [hr] at h
        intro p hp
        rcases List.mem_cons.mp hp with h1 | h1
        · rw [h1]
          exact ⟨pc, hc⟩
        · exact ih pr.1 pr.2 (by rw [hr]) p h1

/-- Under a successful run, the output column for `n` is the categorical
processing of the numeric processing of the input column for `n`. -/
theorem handle_findCol (t : Table) (s1 s2 : String) (t' : Table)
    (iv : List (String × Value))
    (hok : handle_missing_values t s1 s2 = .ok (t', iv)) (n : String) :
    findCol t' n =
      (findCol t n).map (fun c => (catProcessT s2 (numProcess s1 c).1).1) := by
  obtain ⟨iv2, hcat, hiv⟩ := handle_ok t s1 s2 t' iv hok
  obtain ⟨ht', _⟩ := catPass_ok s2 _ t' iv2 hcat
  rw [ht', numericPass_fst]
  show lookupBy n _ = _
  rw [List.map_map]
  have : ((fun p => (p.1, (catProcessT s2 p.2).1)) ∘
      (fun p => (p.1, (numProcess s1 p.2).1)) : String × Column → String × Column) =
      (fun p => (p.1, (catProcessT s2 (numProcess s1 p.2).1).1)) := rfl
  rw [this, lookupBy_map (fun _ c => (catProcessT s2 (numProcess s1 c).1).1) t n]
  rfl

/-- Under a successful run, every column of the intermediate numeric-pass
table passes `catProcess` (the categorical loop raised no exception). -/
theorem handle_entries_ok (t : Table) (s1 s2 : String) (t' : Table)
    (iv : List (String × Value))
    (hok : handle_missing_values t s1 s2 = .ok (t', iv)) :
    ∀ p ∈ t, ∃ r, catProcess s2 (numProcess s1 p.2).1 = .ok r := by
  obtain ⟨iv2, hcat, _⟩ := handle_ok t s1 s2 t' iv hok
  intro p hp
  have hmem : ((p.1, (numProcess s1 p.2).1) : String × Column) ∈ (numericPass s1 t).1 := by
    rw [numericPass_fst]
    exact List.mem_map.mpr ⟨p, hp, rfl⟩
  exact catPass_ok_entries s2 _ t' iv2 hcat _ hmem

/-- Under a successful run (with unique column names), the
`imputation_values` entry for `n` is the value recorded by the numeric pass
if any, else the one recorded by the categorical pass. -/
theorem handle_iv (t : Table) (s1 s2 : String) (t' : Table)
    (iv : List (String × Value))
    (hok : handle_missing_values t s1 s2 = .ok (t', iv))
    (hnd : (t.map Prod.fst).Nodup) (n : String) :
    lookupBy n iv =
      firstSome ((findCol t n).bind (fun c => (numProcess s1 c).2))
        ((findCol t n).bind (fun c => (catProcessT s2 (numProcess s1 c).1).2)) := by
  obtain ⟨iv2, hcat, hiv⟩ := handle_ok t s1 s2 t' iv hok
  obtain ⟨_, hiv2⟩ := catPass_ok s2 _ t' iv2 hcat
  rw [hiv, lookupBy_append]
  rw [numericPass_snd, lookupBy_filterMap (fun _ c => (numProcess s1 c).2) t n hnd]
  rw [hiv2, numericPass_fst]
  rw [show (List.map (fun p => (p.1, (numProcess s1 p.2).1)) t).filterMap
        (fun p => ((catProcessT s2 p.2).2).map (fun v => (p.1, v))) =
      t.filterMap (fun p =>
        ((catProcessT s2 (numProcess s1 p.2).1).2).map (fun v => (p.1, v))) from by
    rw [List.filterMap_map]
    rfl]
  rw [lookupBy_filterMap (fun _ c => (catProcessT s2 (numProcess s1 c).1).2) t n hnd]
  simp only [findCol]

theorem firstSome_some {α : Type} (v : α) (b : Option α) :
    firstSome (some v) b = some v := rfl

theorem firstSome_none {α : Type} (b : Option α) : firstSome none b = b := rfl

theorem isCatLike_eq_false (d : Dtype) (h : d.isNumeric = true) :
    d.isCatLike = false := by
  cases d <;> revert h <;> decide

theorem numProcess_skip (s : String) (c : Column)
    (h : (c.dtype.isNumeric && c.hasNull) = false) : numProcess s c = (c, none) := by
  rw [numProcess, if_neg (by rw [h]; exact Bool.false_ne_true)]

theorem numProcess_apply (s : String) (c : Column)
    (h : (c.dtype.isNumeric && c.hasNull) = true) :
    numProcess s c = (⟨c.dtype, fillCells c.cells (numValue s c)⟩, some (numValue s c)) := by
  rw [numProcess, if_pos h]

theorem catProcess_skip (s : String) (c : Column)
    (h : (c.dtype.isCatLike && c.hasNull) = false) : catProcess s c = .ok (c, none) := by
  rw [catProcess, if_neg (by rw [h]; exact Bool.false_ne_true)]

theorem catProcessT_skip (s : String) (c : Column)
    (h : (c.dtype.isCatLike && c.hasNull) = false) : catProcessT s c = (c, none) := by
  rw [catProcessT, catProcess_skip s c h]

theorem catProcess_mode (c : Column) (v : Value)
    (h : (c.dtype.isCatLike && c.hasNull) = true) (hm : modeValue c = some v) :
    catProcess "mode" c = .ok (⟨c.dtype, fillCells c.cells v⟩, some v) := by
  rw [catProcess, if_pos h, if_pos rfl, hm]

theorem catProcess_mode_empty (c : Column)
    (h : (c.dtype.isCatLike && c.hasNull) = true) (hm : modeValue c = none) :
    catProcess "mode" c = .error () := by
  rw [catProcess, if_pos h, if_pos rfl, hm]

theorem catProcess_unknown (s : String) (c : Column)
    (h : (c.dtype.isCatLike && c.hasNull) = true) (hs : s ≠ "mode")
    (hf : fillUnknownRaises c = false) :
    catProcess s c =
      .ok (⟨c.dtype, fillCells c.cells (.str "Unknown")⟩, some (.str "Unknown")) := by
  rw [catProcess, if_pos h, if_neg hs, if_neg (by rw [hf]; exact Bool.false_ne_true)]

/-- The categorical processing of a column, under success: either skipped,
or filled with the mode, or filled with `'Unknown'`. -/
theorem catProcessT_cases (s : String) (c : Column)
    (hsucc : ∃ r, catProcess s c = .ok r)
    (h : (c.dtype.isCatLike && c.hasNull) = true) :
    ∃ v, v ≠ Value.null ∧
      catProcessT s c = (⟨c.dtype, fillCells c.cells v⟩, some v) := by
  by_cases hs : s = "mode"
  · subst hs
    cases hm : modeValue c with
    | none =>
      obtain ⟨r, hr⟩ := hsucc
      rw [catProcess_mode_empty c h hm] at hr
      exact absurd hr (by exact Except.noConfusion)
    | some v =>
      refine ⟨v, nonNull_ne_null c v (modeValue_mem c v hm), ?_⟩
      rw [catProcessT, catProcess_mode c v h hm]
  · have hf : fillUnknownRaises c = false := by
      cases hx : fillUnknownRaises c with
      | false => rfl
      | true =>
        obtain ⟨r, hr⟩ := hsucc
        rw [catProcess, if_pos h, if_neg hs, if_pos hx] at hr
        exact absurd hr (by exact Except.noConfusion)
    refine ⟨.str "Unknown", fun hh => Value.noConfusion hh, ?_⟩
    rw [catProcessT, catProcess_unknown s c h hs hf]

/-! ### The imputation-value mapping is exact (C9). -/

theorem band_true_iff (a b : Bool) : (a && b) = true ↔ a = true ∧ b = true := by
  cases a <;> cases b <;> decide

/-- C9: for every table (with pandas-unique column names) and successful run
of the Missing-Value Handler, the returned `imputation_values` mapping holds
exactly the modified columns: a name has an entry iff its column is of a
numeric or categorical/text dtype and contained at least one missing value
at call time; the entry's value is the single scalar actually imputed (the
output column is the input column with exactly its missing cells replaced by
that value); and a column with no missing values is left untouched. -/
theorem C9_imputation_mapping_exact (t : Table) (s1 s2 : String) (t' : Table)
    (iv : List (String × Value))
    (hok : handle_missing_values t s1 s2 = .ok (t', iv))
    (hnd : (t.map Prod.fst).Nodup) (n : String) :
    ((∃ v, lookupBy n iv = some v) ↔
      (∃ c, findCol t n = some c ∧
        (c.dtype.isNumeric = true ∨ c.dtype.isCatLike = true) ∧ c.hasNull = true)) ∧
    (∀ v, lookupBy n iv = some v →
      ∃ c c', findCol t n = some c ∧ findCol t' n = some c' ∧
        c'.dtype = c.dtype ∧ c'.cells = fillCells c.cells v) ∧
    (∀ c, findCol t n = some c → c.hasNull = false → findCol t' n = some c) := by
  have hiv := handle_iv t s1 s2 t' iv hok hnd n
  have hfc := handle_findCol t s1 s2 t' iv hok n
  cases hc : findCol t n with
  | none =>
    rw [hc, Option.none_bind, Option.none_bind, firstSome_none] at hiv
    rw [hc, Option.map_none'] at hfc
    refine ⟨⟨?_, ?_⟩, ?_, ?_⟩
    · rintro ⟨v, hv⟩
      rw [hiv] at hv
      exact Option.noConfusion hv
    · rintro ⟨c, hcc, _⟩
      exact Option.noConfusion hcc
    · intro v hv
      rw [hiv] at hv
      exact Option.noConfusion hv
    · intro c hcc
      exact Option.noConfusion hcc
  | some c =>
    rw [hc, Option.some_bind, Option.some_bind] at hiv
    rw [hc, Option.map_some'] at hfc
    have hsucc : ∃ r, catProcess s2 (numProcess s1 c).1 = .ok r :=
      handle_entries_ok t s1 s2 t' iv hok (n, c) (lookupBy_mem t n c hc)
    by_cases hg1 : (c.dtype.isNumeric && c.hasNull) = true
    · -- numeric column with a missing value: processed by the numeric pass
      rw [numProcess_apply s1 c hg1] at hiv hfc hsucc
      have hskip : ((⟨c.dtype, fillCells c.cells (numValue s1 c)⟩ : Column).dtype.isCatLike &&
          (⟨c.dtype, fillCells c.cells (numValue s1 c)⟩ : Column).hasNull) = false := by
        rw [show (⟨c.dtype, fillCells c.cells (numValue s1 c)⟩ : Column).dtype = c.dtype
          from rfl, isCatLike_eq_false c.dtype ((band_true_iff _ _).mp hg1).1, Bool.false_and]
      rw [catProcessT_skip s2 _ hskip] at hiv hfc
      rw [firstSome_some] at hiv
      refine ⟨⟨?_, ?_⟩, ?_, ?_⟩
      · intro _
        exact ⟨c, rfl, Or.inl ((band_true_iff _ _).mp hg1).1, ((band_true_iff _ _).mp hg1).2⟩
      · intro _
        exact ⟨numValue s1 c, hiv⟩
      · intro v hv
        rw [hiv] at hv
        cases hv
        exact ⟨c, _, rfl, hfc, rfl, rfl⟩
      · intro c0 hc0 hn0
        cases hc0
        rw [((band_true_iff _ _).mp hg1).2] at hn0
        exact Bool.noConfusion hn0
    · -- not processed by the numeric pass
      have hg1f : (c.dtype.isNumeric && c.hasNull) = false := by
        cases hb : (c.dtype.isNumeric && c.hasNull) with
        | false => rfl
        | true => exact absurd hb hg1
      rw [numProcess_skip s1 c hg1f] at hiv hfc hsucc
      rw [firstSome_none] at hiv
      by_cases hg2 : (c.dtype.isCatLike && c.hasNull) = true
      · obtain ⟨v, hvne, hct⟩ := catProcessT_cases s2 c hsucc hg2
        rw [hct] at hiv hfc
        refine ⟨⟨?_, ?_⟩, ?_, ?_⟩
        · intro _
          exact ⟨c, rfl, Or.inr ((band_true_iff _ _).mp hg2).1, ((band_true_iff _ _).mp hg2).2⟩
        · intro _
          exact ⟨v, hiv⟩
        · intro v0 hv0
          rw [hiv] at hv0
          cases hv0
          exact ⟨c, _, rfl, hfc, rfl, rfl⟩
        · intro c0 hc0 hn0
          cases hc0
          rw [((band_true_iff _ _).mp hg2).2] at hn0
          exact Bool.noConfusion hn0
      · have hg2f : (c.dtype.isCatLike && c.hasNull) = false := by
          cases hb : (c.dtype.isCatLike && c.hasNull) with
          | false => rfl
          | true => exact absurd hb hg2
        rw [catProcessT_skip s2 c hg2f] at hiv hfc
        refine ⟨⟨?_, ?_⟩, ?_, ?_⟩
        · rintro ⟨v, hv⟩
          rw [hiv] at hv
          exact Option.noConfusion hv
        · rintro ⟨c0, hc0, hclass, hnull⟩
          cases hc0
          cases hclass with
          | inl hnum => exact absurd ((band_true_iff _ _).mpr ⟨hnum, hnull⟩) hg1
          | inr hcat => exact absurd ((band_true_iff _ _).mpr ⟨hcat, hnull⟩) hg2
        · intro v hv
          rw [hiv] at hv
          exact Option.noConfusion hv
        · intro c0 hc0 _
          cases hc0
          exact hfc

/-! ### No missing values remain after the handler (C2). -/

theorem fillCells_getD (cells : List Value) (v : Value) (i : Nat) (hi : i < cells.length) :
    (fillCells cells v).getD i .null =
      (if cells.getD i .null = .null then v else cells.getD i .null) := by
  have ha := List.getElem?_eq_getElem hi
  rw [fillCells, List.getD_eq_getElem?_getD, List.getElem?_map, ha,
    List.getD_eq_getElem?_getD, ha]
  rfl

theorem numValue_ne_null (s : String) (c : Column) (h : numsOf c.cells ≠ []) :
    numValue s c ≠ .null := by
  rw [numValue]
  by_cases h1 : s = "mean"
  · rw [if_pos h1, meanValue_num c h]
    exact fun hh => Value.noConfusion hh
  · rw [if_neg h1]
    by_cases h2 : s = "median"
    · rw [if_pos h2]
      exact medianValue_ne_null c h
    · rw [if_neg h2]
      exact fun hh => Value.noConfusion hh

/-- C2 (counterexample): on a table whose only column is numeric and
entirely missing, the handler with the `'mean'` strategy succeeds but leaves
the column's missing value in place (`mean()` of an all-missing column is
`NaN` and `fillna(NaN)` fills nothing), contradicting the claim that no
numeric column retains a missing value after the run. -/
theorem C2_all_missing_mean_counterexample :
    handle_missing_values [("NU_NOTA_CN", ⟨Dtype.float64, [Value.null]⟩)] "mean" "mode" =
      .ok ([("NU_NOTA_CN", ⟨Dtype.float64, [Value.null]⟩)], [("NU_NOTA_CN", Value.null)]) ∧
    (⟨Dtype.float64, [Value.null]⟩ : Column).dtype.isNumeric = true ∧
    (⟨Dtype.float64, [Value.null]⟩ : Column).hasNull = true :=
  ⟨by decide, rfl, by decide⟩

/-- C2 (amended): if every numeric column that has a missing value also has
at least one non-missing value, then after a successful run of the
Missing-Value Handler no numeric and no categorical/text column retains a
missing value; and under the `'mean'` strategy the recorded imputation value
for each numeric column with missing values is the arithmetic mean of the
column's originally non-missing values, and exactly the originally-missing
cells of that column now hold that single value. -/
theorem C2_missing_values_amended (t : Table) (s1 s2 : String) (t' : Table)
    (iv : List (String × Value))
    (hok : handle_missing_values t s1 s2 = .ok (t', iv))
    (hnd : (t.map Prod.fst).Nodup)
    (hnn : ∀ p ∈ t, p.2.dtype.isNumeric = true → p.2.hasNull = true →
      numsOf p.2.cells ≠ []) :
    (∀ p ∈ t', (p.2.dtype.isNumeric = true ∨ p.2.dtype.isCatLike = true) →
      p.2.hasNull = false) ∧
    (s1 = "mean" → ∀ n c, findCol t n = some c → c.dtype.isNumeric = true →
      c.hasNull = true →
      lookupBy n iv = some (.num (ratMean (numsOf c.cells))) ∧
      ratMean (numsOf c.cells) * ((numsOf c.cells).length : ℚ) = (numsOf c.cells).sum ∧
      (∃ c', findCol t' n = some c' ∧ c'.dtype = c.dtype ∧
        c'.cells.length = c.cells.length ∧
        (∀ i, i < c.cells.length →
          (c.cells.getD i .null = .null →
            c'.cells.getD i .null = .num (ratMean (numsOf c.cells))) ∧
          (c.cells.getD i .null ≠ .null →
            c'.cells.getD i .null = c.cells.getD i .null)))) := by
  constructor
  · -- (a) no missing value remains in any column
    intro p' hp' _
    obtain ⟨iv2, hcat, _⟩ := handle_ok t s1 s2 t' iv hok
    obtain ⟨ht', _⟩ := catPass_ok s2 _ t' iv2 hcat
    rw [ht', numericPass_fst, List.map_map] at hp'
    obtain ⟨p, hp, hpp⟩ := List.mem_map.mp hp'
    have hsucc : ∃ r, catProcess s2 (numProcess s1 p.2).1 = .ok r :=
      handle_entries_ok t s1 s2 t' iv hok p hp
    rw [← hpp]
    show ((catProcessT s2 (numProcess s1 p.2).1).1).hasNull = false
    by_cases hg1 : (p.2.dtype.isNumeric && p.2.hasNull) = true
    · rw [numProcess_apply s1 p.2 hg1] at hsucc ⊢
      have hvne : numValue s1 p.2 ≠ .null :=
        numValue_ne_null s1 p.2
          (hnn p hp ((band_true_iff _ _).mp hg1).1 ((band_true_iff _ _).mp hg1).2)
      have hnonull : (⟨p.2.dtype, fillCells p.2.cells (numValue s1 p.2)⟩ : Column).hasNull
          = false :=
        (hasNull_false_iff _).mpr (fillCells_no_null _ _ hvne)
      have hskip : ((⟨p.2.dtype, fillCells p.2.cells (numValue s1 p.2)⟩ :
          Column).dtype.isCatLike &&
          (⟨p.2.dtype, fillCells p.2.cells (numValue s1 p.2)⟩ : Column).hasNull) = false := by
        rw [hnonull, Bool.and_false]
      rw [catProcessT_skip s2 _ hskip]
      exact hnonull
    · have hg1f : (p.2.dtype.isNumeric && p.2.hasNull) = false := by
        cases hb : (p.2.dtype.isNumeric && p.2.hasNull) with
        | false => rfl
        | true => exact absurd hb hg1
      rw [numProcess_skip s1 p.2 hg1f] at hsucc ⊢
      by_cases hg2 : (p.2.dtype.isCatLike && p.2.hasNull) = true
      · obtain ⟨v, hvne, hct⟩ := catProcessT_cases s2 p.2 hsucc hg2
        rw [hct]
        exact (hasNull_false_iff _).mpr (fillCells_no_null _ _ hvne)
      · have hg2f : (p.2.dtype.isCatLike && p.2.hasNull) = false := by
          cases hb : (p.2.dtype.isCatLike && p.2.hasNull) with
          | false => rfl
          | true => exact absurd hb hg2
        rw [catProcessT_skip s2 p.2 hg2f]
        cases hnl : p.2.hasNull with
        | false => rfl
        | true =>
          cases dtype_class_total p.2.dtype with
          | inl hnum =>
            rw [hnum, hnl] at hg1f
            exact Bool.noConfusion hg1f
          | inr hcat2 =>
            rw [hcat2, hnl] at hg2f
            exact Bool.noConfusion hg2f
  · -- (b) mean strategy imputes the arithmetic mean
    intro hs1 n c hcfind hnum hnull
    have hmem := lookupBy_mem t n c hcfind
    have hne : numsOf c.cells ≠ [] := hnn (n, c) hmem hnum hnull
    have hg1 : (c.dtype.isNumeric && c.hasNull) = true :=
      (band_true_iff _ _).mpr ⟨hnum, hnull⟩
    have hmean : numValue s1 c = .num (ratMean (numsOf c.cells)) := by
      rw [hs1, numValue, if_pos rfl, meanValue_num c hne]
    have hiv := handle_iv t s1 s2 t' iv hok hnd n
    have hfc := handle_findCol t s1 s2 t' iv hok n
    rw [hcfind, Option.some_bind, Option.some_bind] at hiv
    rw [hcfind, Option.map_some'] at hfc
    rw [numProcess_apply s1 c hg1] at hiv hfc
    have hvne : numValue s1 c ≠ .null := numValue_ne_null s1 c hne
    have hnonull : (⟨c.dtype, fillCells c.cells (numValue s1 c)⟩ : Column).hasNull = false :=
      (hasNull_false_iff _).mpr (fillCells_no_null _ _ hvne)
    have hskip : ((⟨c.dtype, fillCells c.cells (numValue s1 c)⟩ : Column).dtype.isCatLike &&
        (⟨c.dtype, fillCells c.cells (numValue s1 c)⟩ : Column).hasNull) = false := by
      rw [hnonull, Bool.and_false]
    rw [catProcessT_skip s2 _ hskip] at hiv hfc
    rw [firstSome_some, hmean] at hiv
    refine ⟨hiv, ?_, ?_⟩
    · have hlen : ((numsOf c.cells).length : ℚ) ≠ 0 := by
        rw [Nat.cast_ne_zero]
        exact fun h0 => hne (List.length_eq_zero.mp h0)
      rw [ratMean_eq]
      exact div_mul_cancel₀ _ hlen
    · refine ⟨⟨c.dtype, fillCells c.cells (numValue s1 c)⟩, hfc, rfl, ?_, ?_⟩
      · exact List.length_map _ _
      · intro i hi
        constructor
        · intro hcell
          show (fillCells c.cells (numValue s1 c)).getD i .null = _
          rw [fillCells_getD c.cells _ i hi, if_pos hcell, hmean]
        · intro hcell
          show (fillCells c.cells (numValue s1 c)).getD i .null = _
          rw [fillCells_getD c.cells _ i hi, if_neg hcell]

/-- C2 (witness): the amended theorem applied to the one-column table
`NU_NOTA_CN = [400, NaN, 600]` with strategies `'mean'`/`'unknown'`. -/
theorem C2_witness :
    handle_missing_values [("NU_NOTA_CN", ⟨Dtype.float64,
        [Value.num 400, Value.null, Value.num 600]⟩)] "mean" "unknown" =
      .ok ([("NU_NOTA_CN", ⟨Dtype.float64,
            [Value.num 400, Value.num 500, Value.num 600]⟩)],
           [("NU_NOTA_CN", Value.num 500)]) ∧
    (([("NU_NOTA_CN", (⟨Dtype.float64,
        [Value.num 400, Value.null, Value.num 600]⟩ : Column))] : Table).map
      Prod.fst).Nodup ∧
    (∀ p ∈ ([("NU_NOTA_CN", (⟨Dtype.float64,
        [Value.num 400, Value.null, Value.num 600]⟩ : Column))] : Table),
      p.2.dtype.isNumeric = true → p.2.hasNull = true → numsOf p.2.cells ≠ []) ∧
    ((∀ p ∈ ([("NU_NOTA_CN", ⟨Dtype.float64,
          [Value.num 400, Value.num 500, Value.num 600]⟩)] : Table),
        (p.2.dtype.isNumeric = true ∨ p.2.dtype.isCatLike = true) →
        p.2.hasNull = false) ∧
     (("mean" : String) = "mean" → ∀ n c,
        findCol [("NU_NOTA_CN", (⟨Dtype.float64,
          [Value.num 400, Value.null, Value.num 600]⟩ : Column))] n = some c →
        c.dtype.isNumeric = true → c.hasNull = true →
        lookupBy n [("NU_NOTA_CN", Value.num 500)] =
          some (.num (ratMean (numsOf c.cells))) ∧
        ratMean (numsOf c.cells) * ((numsOf c.cells).length : ℚ) = (numsOf c.cells).sum ∧
        (∃ c', findCol [("NU_NOTA_CN", ⟨Dtype.float64,
            [Value.num 400, Value.num 500, Value.num 600]⟩)] n = some c' ∧
          c'.dtype = c.dtype ∧ c'.cells.length = c.cells.length ∧
          (∀ i, i < c.cells.length →
            (c.cells.getD i .null = .null →
              c'.cells.getD i .null = .num (ratMean (numsOf c.cells))) ∧
            (c.cells.getD i .null ≠ .null →
              c'.cells.getD i .null = c.cells.getD i .null))))) :=
  ⟨by decide, by decide, by decide,
   C2_missing_values_amended _ "mean" "unknown" _ _ (by decide) (by decide) (by decide)⟩

/-- C9 (witness): the theorem applied to a two-column table (a numeric
column with a missing value, a text column with a missing value) with
strategies `'mean'`/`'unknown'`, at the column `NU_NOTA_CN`. -/
theorem C9_witness :
    handle_missing_values
        [("NU_NOTA_CN", ⟨Dtype.float64, [Value.num 500, Value.null]⟩),
         ("TP_SEXO", ⟨Dtype.object, [Value.null, Value.str "Male"]⟩)]
        "mean" "unknown" =
      .ok ([("NU_NOTA_CN", ⟨Dtype.float64, [Value.num 500, Value.num 500]⟩),
            ("TP_SEXO", ⟨Dtype.object, [Value.str "Unknown", Value.str "Male"]⟩)],
           [("NU_NOTA_CN", Value.num 500), ("TP_SEXO", Value.str "Unknown")]) ∧
    (([("NU_NOTA_CN", (⟨Dtype.float64, [Value.num 500, Value.null]⟩ : Column)),
       ("TP_SEXO", (⟨Dtype.object, [Value.null, Value.str "Male"]⟩ : Column))] :
      Table).map Prod.fst).Nodup ∧
    (((∃ v, lookupBy "NU_NOTA_CN"
          [("NU_NOTA_CN", Value.num 500), ("TP_SEXO", Value.str "Unknown")] = some v) ↔
       (∃ c, findCol [("NU_NOTA_CN", (⟨Dtype.float64,
            [Value.num 500, Value.null]⟩ : Column)),
          ("TP_SEXO", (⟨Dtype.object, [Value.null, Value.str "Male"]⟩ : Column))]
          "NU_NOTA_CN" = some c ∧
         (c.dtype.isNumeric = true ∨ c.dtype.isCatLike = true) ∧ c.hasNull = true)) ∧
     (∀ v, lookupBy "NU_NOTA_CN"
          [("NU_NOTA_CN", Value.num 500), ("TP_SEXO", Value.str "Unknown")] = some v →
       ∃ c c', findCol [("NU_NOTA_CN", (⟨Dtype.float64,
            [Value.num 500, Value.null]⟩ : Column)),
          ("TP_SEXO", (⟨Dtype.object, [Value.null, Value.str "Male"]⟩ : Column))]
          "NU_NOTA_CN" = some c ∧
         findCol [("NU_NOTA_CN", ⟨Dtype.float64, [Value.num 500, Value.num 500]⟩),
            ("TP_SEXO", ⟨Dtype.object, [Value.str "Unknown", Value.str "Male"]⟩)]
          "NU_NOTA_CN" = some c' ∧
         c'.dtype = c.dtype ∧ c'.cells = fillCells c.cells v) ∧
     (∀ c, findCol [("NU_NOTA_CN", (⟨Dtype.float64,
            [Value.num 500, Value.null]⟩ : Column)),
          ("TP_SEXO", (⟨Dtype.object, [Value.null, Value.str "Male"]⟩ : Column))]
          "NU_NOTA_CN" = some c →
       c.hasNull = false →
       findCol [("NU_NOTA_CN", ⟨Dtype.float64, [Value.num 500, Value.num 500]⟩),
          ("TP_SEXO", ⟨Dtype.object, [Value.str "Unknown", Value.str "Male"]⟩)]
          "NU_NOTA_CN" = some c)) :=
  ⟨by decide, by decide,
   C9_imputation_mapping_exact _ "mean" "unknown" _ _ (by decide) (by decide) "NU_NOTA_CN"⟩

/-! ### Unrecognized strategies fall through, but the fallthrough fill can
raise (C10). -/

theorem fillUnknownRaises_false_of_skip (c : Column)
    (h : (c.dtype.isCatLike && c.hasNull) = false) : fillUnknownRaises c = false := by
  rw [fillUnknownRaises]
  by_cases hd : (c.dtype == Dtype.category) = true
  · have hcat : c.dtype.isCatLike = true := by
      rw [show c.dtype = Dtype.category from beq_iff_eq.mp hd]
      rfl
    rw [hcat, Bool.true_and] at h
    rw [hd, Bool.true_and, h]
    simp only [Bool.false_and]
  · have hdf : (c.dtype == Dtype.category) = false := by
      cases hx : (c.dtype == Dtype.category) with
      | false => rfl
      | true => exact absurd hx hd
    rw [hdf]
    simp only [Bool.false_and]

/-- With a categorical strategy other than `'mode'`, processing a column
succeeds exactly when the `'Unknown'` fill does not raise on it. -/
theorem catProcess_ok_iff (s : String) (c : Column) (h : s ≠ "mode") :
    (∃ r, catProcess s c = .ok r) ↔ fillUnknownRaises c = false := by
  by_cases hb : (c.dtype.isCatLike && c.hasNull) = true
  · rw [catProcess, if_pos hb, if_neg h]
    by_cases hf : fillUnknownRaises c = true
    · rw [if_pos hf]
      constructor
      · rintro ⟨r, hr⟩
        exact absurd hr (by exact Except.noConfusion)
      · intro hff
        rw [hf] at hff
        exact Bool.noConfusion hff
    · have hff : fillUnknownRaises c = false := by
        cases hx : fillUnknownRaises c with
        | false => rfl
        | true => exact absurd hx hf
      rw [if_neg (by rw [hff]; exact Bool.false_ne_true)]
      exact ⟨fun _ => hff, fun _ => ⟨_, rfl⟩⟩
  · have hbf : (c.dtype.isCatLike && c.hasNull) = false := by
      cases hx : (c.dtype.isCatLike && c.hasNull) with
      | false => rfl
      | true => exact absurd hx hb
    rw [catProcess, if_neg (by rw [hbf]; exact Bool.false_ne_true)]
    exact ⟨fun _ => fillUnknownRaises_false_of_skip c hbf, fun _ => ⟨_, rfl⟩⟩

theorem beq_category_false_of_numeric (d : Dtype) (h : d.isNumeric = true) :
    (d == Dtype.category) = false := by
  cases d <;> revert h <;> decide

/-- The numeric pass never creates or removes a raise condition for the
`'Unknown'` fill: it only touches numeric-dtype columns, which are never
category-dtype. -/
theorem numProcess_fillUnknownRaises (s : String) (c : Column) :
    fillUnknownRaises (numProcess s c).1 = fillUnknownRaises c := by
  by_cases hg : (c.dtype.isNumeric && c.hasNull) = true
  · rw [numProcess_apply s c hg]
    have hbc := beq_category_false_of_numeric c.dtype ((band_true_iff _ _).mp hg).1
    rw [fillUnknownRaises, fillUnknownRaises]
    rw [show (⟨c.dtype, fillCells c.cells (numValue s c)⟩ : Column).dtype = c.dtype from rfl,
      hbc]
    simp only [Bool.false_and]
  · have hgf : (c.dtype.isNumeric && c.hasNull) = false := by
      cases hx : (c.dtype.isNumeric && c.hasNull) with
      | false => rfl
      | true => exact absurd hx hg
    rw [numProcess_skip s c hgf]

/-- C10 (counterexample): with the unrecognized categorical strategy
`'fill'`, on the category-dtype column `TP_SEXO = category['M', NaN]` the
fallthrough `fillna('Unknown')` raises an uncaught `TypeError` (`'Unknown'`
is a new category), so the handler call fails — contradicting the claim that
no error is raised for an unrecognized strategy. -/
theorem C10_fill_raise_counterexample :
    ("fill" : String) ≠ "mode" ∧
    handle_missing_values [("TP_SEXO", ⟨Dtype.category, [Value.str "M", Value.null]⟩)]
      "mean" "fill" = .error () ∧
    ¬∃ r, handle_missing_values [("TP_SEXO", ⟨Dtype.category, [Value.str "M", Value.null]⟩)]
      "mean" "fill" = .ok r := by
  have he : handle_missing_values [("TP_SEXO", ⟨Dtype.category, [Value.str "M", Value.null]⟩)]
      "mean" "fill" = .error () := by decide
  refine ⟨by decide, he, ?_⟩
  rintro ⟨r, hr⟩
  rw [he] at hr
  exact Except.noConfusion hr

/-- C10 (amended): the Missing-Value Handler never rejects a strategy name:
any numeric-strategy string other than `'mean'` and `'median'` behaves
exactly as the `'zero'` strategy and any categorical-strategy string other
than `'mode'` behaves exactly as the `'unknown'` strategy (the full result,
error or not, is identical).  The fallthrough is not error-free, though:
with a non-`'mode'` categorical strategy the call succeeds exactly when no
column makes `fillna('Unknown')` raise, i.e. no column is category-dtype
with a missing value and without `'Unknown'` among its values. -/
theorem C10_unrecognized_strategies_amended (t : Table) (s1 s2 : String) :
    (s1 ≠ "mean" → s1 ≠ "median" →
      handle_missing_values t s1 s2 = handle_missing_values t "zero" s2) ∧
    (s2 ≠ "mode" →
      handle_missing_values t s1 s2 = handle_missing_values t s1 "unknown") ∧
    (s2 ≠ "mode" →
      ((∃ r, handle_missing_values t s1 s2 = .ok r) ↔
        ∀ p ∈ t, fillUnknownRaises p.2 = false)) := by
  refine ⟨fun h1 h2 => ?_, fun h => ?_, fun h => ?_⟩
  · rw [handle_missing_values, handle_missing_values,
      numericPass_congr s1 "zero" t (fun c => numProcess_default s1 c h1 h2)]
  · rw [handle_missing_values, handle_missing_values,
      catPass_congr s2 "unknown" _ (fun c => catProcess_default s2 c h)]
  · have hloop : (∃ r2, catPass s2 (numericPass s1 t).1 = .ok r2) ↔
        ∀ p ∈ t, fillUnknownRaises p.2 = false := by
      constructor
      · rintro ⟨⟨t2, iv2⟩, hr⟩
        intro p hp
        have hone := catPass_ok_entries s2 _ t2 iv2 hr (p.1, (numProcess s1 p.2).1) (by
          rw [numericPass_fst]
          exact List.mem_map.mpr ⟨p, hp, rfl⟩)
        rw [← numProcess_fillUnknownRaises s1 p.2]
        exact (catProcess_ok_iff s2 _ h).mp hone
      · intro hall
        refine ⟨_, catPass_isOk s2 _ ?_⟩
        intro p hp
        rw [numericPass_fst] at hp
        obtain ⟨q, hq, hpq⟩ := List.mem_map.mp hp
        rw [catProcess_ok_iff s2 _ h, ← hpq]
        show fillUnknownRaises (numProcess s1 q.2).1 = false
        rw [numProcess_fillUnknownRaises]
        exact hall q hq
    rw [handle_missing_values]
    constructor
    · rintro ⟨r, hr⟩
      refine hloop.mp ?_
      cases hc : catPass s2 (numericPass s1 t).1 with
      | error e =>
        rw [hc] at hr
        exact absurd hr (by exact Except.noConfusion)
      | ok pc => exact ⟨pc, rfl⟩
    · intro hall
      obtain ⟨r2, hr2⟩ := hloop.mpr hall
      rw [hr2, Except_ok_bind]
      exact ⟨_, rfl⟩

/-- C10 (witness): the amended theorem applied with the unrecognized
strategy names `'drop'` and `'fill'` on a table with a numeric missing value
and an object-dtype categorical missing value; no column is category-dtype,
so the `'Unknown'` fill cannot raise and the call succeeds. -/
theorem C10_witness :
    ("drop" : String) ≠ "mean" ∧ ("drop" : String) ≠ "median" ∧
    ("fill" : String) ≠ "mode" ∧
    (handle_missing_values
        [("NU_NOTA_CN", (⟨Dtype.float64, [Value.num 500, Value.null]⟩ : Column)),
         ("TP_SEXO", (⟨Dtype.object, [Value.null, Value.str "Male"]⟩ : Column))]
        "drop" "fill" =
      handle_missing_values
        [("NU_NOTA_CN", (⟨Dtype.float64, [Value.num 500, Value.null]⟩ : Column)),
         ("TP_SEXO", (⟨Dtype.object, [Value.null, Value.str "Male"]⟩ : Column))]
        "zero" "fill") ∧
    (handle_missing_values
        [("NU_NOTA_CN", (⟨Dtype.float64, [Value.num 500, Value.null]⟩ : Column)),
         ("TP_SEXO", (⟨Dtype.object, [Value.null, Value.str "Male"]⟩ : Column))]
        "drop" "fill" =
      handle_missing_values
        [("NU_NOTA_CN", (⟨Dtype.float64, [Value.num 500, Value.null]⟩ : Column)),
         ("TP_SEXO", (⟨Dtype.object, [Value.null, Value.str "Male"]⟩ : Column))]
        "drop" "unknown") ∧
    (∀ p ∈ ([("NU_NOTA_CN", (⟨Dtype.float64, [Value.num 500, Value.null]⟩ : Column)),
         ("TP_SEXO", (⟨Dtype.object, [Value.null, Value.str "Male"]⟩ : Column))] : Table),
      fillUnknownRaises p.2 = false) ∧
    (∃ r, handle_missing_values
        [("NU_NOTA_CN", (⟨Dtype.float64, [Value.num 500, Value.null]⟩ : Column)),
         ("TP_SEXO", (⟨Dtype.object, [Value.null, Value.str "Male"]⟩ : Column))]
        "drop" "fill" = .ok r) :=
  ⟨by decide, by decide, by decide,
   (C10_unrecognized_strategies_amended _ "drop" "fill").1 (by decide) (by decide),
   (C10_unrecognized_strategies_amended _ "drop" "fill").2.1 (by decide),
   by decide,
   ((C10_unrecognized_strategies_amended _ "drop" "fill").2.2 (by decide)).mpr (by decide)⟩

/-! ### The Validator's issue list (C7). -/

theorem checkScore_eq (col : String) (s : ValState) :
    checkScore col s = (s.1, s.2 ++ scorePart s.1 col) := by
  cases h : findCol s.1 col with
  | none => simp only [checkScore, scorePart, h, List.append_nil]
  | some c =>
    by_cases hk : 0 < invalidScoreCount c
    · simp only [checkScore, scorePart, h, if_pos hk]
    · simp only [checkScore, scorePart, h, if_neg hk, List.append_nil]

theorem checkEssay_eq (s : ValState) :
    checkEssay s = (s.1, s.2 ++ essayPart s.1) := by
  cases h : findCol s.1 "NU_NOTA_REDACAO" with
  | none => simp only [checkEssay, essayPart, h, List.append_nil]
  | some c =>
    by_cases hk : 0 < invalidScoreCount c
    · simp only [checkEssay, essayPart, h, if_pos hk]
    · simp only [checkEssay, essayPart, h, if_neg hk, List.append_nil]

theorem checkAge_eq (s : ValState) :
    checkAge s = (s.1, s.2 ++ agePart s.1) := by
  cases h : findCol s.1 "TP_FAIXA_ETARIA" with
  | none => simp only [checkAge, agePart, h, List.append_nil]
  | some c =>
    by_cases hk : 0 < invalidAgeCount c
    · simp only [checkAge, agePart, h, if_pos hk]
    · simp only [checkAge, agePart, h, if_neg hk, List.append_nil]

/-- The issue list is the concatenation of the six checks' contributions,
in source order. -/
theorem validate_decomp (t : Table) :
    validate_data t =
      scorePart t "NU_NOTA_CN" ++ scorePart t "NU_NOTA_CH" ++
      scorePart t "NU_NOTA_LC" ++ scorePart t "NU_NOTA_MT" ++
      essayPart t ++ agePart t := by
  rw [validate_data, validate_run, checkScore_eq, checkScore_eq, checkScore_eq,
    checkScore_eq, checkEssay_eq, checkAge_eq]
  simp only [List.nil_append, List.append_assoc]

theorem mem_scorePart (t : Table) (col x : String) (h : x ∈ scorePart t col) :
    ∃ c, findCol t col = some c ∧ 0 < invalidScoreCount c ∧
      x = scoreMsg col (invalidScoreCount c) := by
  cases hf : findCol t col with
  | none =>
    simp only [scorePart, hf] at h
    exact absurd h (List.not_mem_nil x)
  | some c =>
    simp only [scorePart, hf] at h
    by_cases hk : 0 < invalidScoreCount c
    · rw [if_pos hk] at h
      exact ⟨c, rfl, hk, List.mem_singleton.mp h⟩
    · rw [if_neg hk] at h
      exact absurd h (List.not_mem_nil x)

theorem mem_essayPart (t : Table) (x : String) (h : x ∈ essayPart t) :
    ∃ c, findCol t "NU_NOTA_REDACAO" = some c ∧ 0 < invalidScoreCount c ∧
      x = essayMsg (invalidScoreCount c) := by
  cases hf : findCol t "NU_NOTA_REDACAO" with
  | none =>
    simp only [essayPart, hf] at h
    exact absurd h (List.not_mem_nil x)
  | some c =>
    simp only [essayPart, hf] at h
    by_cases hk : 0 < invalidScoreCount c
    · rw [if_pos hk] at h
      exact ⟨c, rfl, hk, List.mem_singleton.mp h⟩
    · rw [if_neg hk] at h
      exact absurd h (List.not_mem_nil x)

theorem mem_agePart (t : Table) (x : String) (h : x ∈ agePart t) :
    ∃ c, findCol t "TP_FAIXA_ETARIA" = some c ∧ 0 < invalidAgeCount c ∧
      x = ageMsg (invalidAgeCount c) := by
  cases hf : findCol t "TP_FAIXA_ETARIA" with
  | none =>
    simp only [agePart, hf] at h
    exact absurd h (List.not_mem_nil x)
  | some c =>
    simp only [agePart, hf] at h
    by_cases hk : 0 < invalidAgeCount c
    · rw [if_pos hk] at h
      exact ⟨c, rfl, hk, List.mem_singleton.mp h⟩
    · rw [if_neg hk] at h
      exact absurd h (List.not_mem_nil x)

/-- Two issue messages with suffixes that differ at some position (counting
from the end) are distinct, whatever the embedded counts are. -/
theorem issueMsg_ne (n m : Nat) (s1 s2 : String) (i : Nat)
    (h1 : i < s1.data.reverse.length) (h2 : i < s2.data.reverse.length)
    (h3 : s1.data.reverse[i]? ≠ s2.data.reverse[i]?) :
    issueMsg n s1 ≠ issueMsg m s2 := by
  intro he
  have hd : (issueMsg n s1).data.reverse = (issueMsg m s2).data.reverse := by rw [he]
  rw [show (issueMsg n s1).data = ("Found " ++ toString n).data ++ s1.data from rfl,
      show (issueMsg m s2).data = ("Found " ++ toString m).data ++ s2.data from rfl,
      List.reverse_append, List.reverse_append] at hd
  have hi := congrArg (fun l => l[i]?) hd
  simp only [] at hi
  rw [List.getElem?_append_left h1, List.getElem?_append_left h2] at hi
  exact h3 hi

theorem ne_CN_CH (n m : Nat) : scoreMsg "NU_NOTA_CN" n ≠ scoreMsg "NU_NOTA_CH" m :=
  issueMsg_ne n m _ _ 0 (by decide) (by decide) (by decide)

theorem ne_CN_LC (n m : Nat) : scoreMsg "NU_NOTA_CN" n ≠ scoreMsg "NU_NOTA_LC" m :=
  issueMsg_ne n m _ _ 0 (by decide) (by decide) (by decide)

theorem ne_CN_MT (n m : Nat) : scoreMsg "NU_NOTA_CN" n ≠ scoreMsg "NU_NOTA_MT" m :=
  issueMsg_ne n m _ _ 0 (by decide) (by decide) (by decide)

theorem ne_CH_LC (n m : Nat) : scoreMsg "NU_NOTA_CH" n ≠ scoreMsg "NU_NOTA_LC" m :=
  issueMsg_ne n m _ _ 0 (by decide) (by decide) (by decide)

theorem ne_CH_MT (n m : Nat) : scoreMsg "NU_NOTA_CH" n ≠ scoreMsg "NU_NOTA_MT" m :=
  issueMsg_ne n m _ _ 0 (by decide) (by decide) (by decide)

theorem ne_LC_MT (n m : Nat) : scoreMsg "NU_NOTA_LC" n ≠ scoreMsg "NU_NOTA_MT" m :=
  issueMsg_ne n m _ _ 0 (by decide) (by decide) (by decide)

theorem ne_CN_essay (n m : Nat) : scoreMsg "NU_NOTA_CN" n ≠ essayMsg m :=
  issueMsg_ne n m _ _ 0 (by decide) (by decide) (by decide)

theorem ne_CH_essay (n m : Nat) : scoreMsg "NU_NOTA_CH" n ≠ essayMsg m :=
  issueMsg_ne n m _ _ 0 (by decide) (by decide) (by decide)

theorem ne_LC_essay (n m : Nat) : scoreMsg "NU_NOTA_LC" n ≠ essayMsg m :=
  issueMsg_ne n m _ _ 0 (by decide) (by decide) (by decide)

theorem ne_MT_essay (n m : Nat) : scoreMsg "NU_NOTA_MT" n ≠ essayMsg m :=
  issueMsg_ne n m _ _ 0 (by decide) (by decide) (by decide)

theorem ne_CN_age (n m : Nat) : scoreMsg "NU_NOTA_CN" n ≠ ageMsg m :=
  issueMsg_ne n m _ _ 0 (by decide) (by decide) (by decide)

theorem ne_CH_age (n m : Nat) : scoreMsg "NU_NOTA_CH" n ≠ ageMsg m :=
  issueMsg_ne n m _ _ 0 (by decide) (by decide) (by decide)

theorem ne_LC_age (n m : Nat) : scoreMsg "NU_NOTA_LC" n ≠ ageMsg m :=
  issueMsg_ne n m _ _ 0 (by decide) (by decide) (by decide)

theorem ne_MT_age (n m : Nat) : scoreMsg "NU_NOTA_MT" n ≠ ageMsg m :=
  issueMsg_ne n m _ _ 0 (by decide) (by decide) (by decide)

theorem ne_essay_age (n m : Nat) : essayMsg n ≠ ageMsg m :=
  issueMsg_ne n m _ _ 2 (by decide) (by decide) (by decide)

theorem count_scorePart_zero (t : Table) (col' m : String)
    (hne : ∀ j, m ≠ scoreMsg col' j) : (scorePart t col').count m = 0 := by
  apply List.count_eq_zero_of_not_mem
  intro hm
  obtain ⟨c, _, _, hx⟩ := mem_scorePart t col' m hm
  exact hne _ hx

theorem count_essayPart_zero (t : Table) (m : String)
    (hne : ∀ j, m ≠ essayMsg j) : (essayPart t).count m = 0 := by
  apply List.count_eq_zero_of_not_mem
  intro hm
  obtain ⟨c, _, _, hx⟩ := mem_essayPart t m hm
  exact hne _ hx

theorem count_agePart_zero (t : Table) (m : String)
    (hne : ∀ j, m ≠ ageMsg j) : (agePart t).count m = 0 := by
  apply List.count_eq_zero_of_not_mem
  intro hm
  obtain ⟨c, _, _, hx⟩ := mem_agePart t m hm
  exact hne _ hx

theorem count_scorePart_one (t : Table) (col : String) (c : Column)
    (hf : findCol t col = some c) (hk : 0 < invalidScoreCount c) :
    (scorePart t col).count (scoreMsg col (invalidScoreCount c)) = 1 := by
  simp only [scorePart, hf, if_pos hk]
  rw [List.count_cons_self, List.count_nil]

theorem count_essayPart_one (t : Table) (c : Column)
    (hf : findCol t "NU_NOTA_REDACAO" = some c) (hk : 0 < invalidScoreCount c) :
    (essayPart t).count (essayMsg (invalidScoreCount c)) = 1 := by
  simp only [essayPart, hf, if_pos hk]
  rw [List.count_cons_self, List.count_nil]

theorem count_agePart_one (t : Table) (c : Column)
    (hf : findCol t "TP_FAIXA_ETARIA" = some c) (hk : 0 < invalidAgeCount c) :
    (agePart t).count (ageMsg (invalidAgeCount c)) = 1 := by
  simp only [agePart, hf, if_pos hk]
  rw [List.count_cons_self, List.count_nil]

theorem scorePart_nil_of_zero (t : Table) (col : String) (c : Column)
    (hf : findCol t col = some c) (hk : invalidScoreCount c = 0) :
    scorePart t col = [] := by
  simp only [scorePart, hf, if_neg (show ¬0 < invalidScoreCount c by rw [hk]; exact lt_irrefl 0)]

theorem scorePart_nil_of_none (t : Table) (col : String)
    (hf : findCol t col = none) : scorePart t col = [] := by
  simp only [scorePart, hf]

theorem essayPart_nil_of_zero (t : Table) (c : Column)
    (hf : findCol t "NU_NOTA_REDACAO" = some c) (hk : invalidScoreCount c = 0) :
    essayPart t = [] := by
  simp only [essayPart, hf,
    if_neg (show ¬0 < invalidScoreCount c by rw [hk]; exact lt_irrefl 0)]

theorem essayPart_nil_of_none (t : Table)
    (hf : findCol t "NU_NOTA_REDACAO" = none) : essayPart t = [] := by
  simp only [essayPart, hf]

theorem agePart_nil_of_zero (t : Table) (c : Column)
    (hf : findCol t "TP_FAIXA_ETARIA" = some c) (hk : invalidAgeCount c = 0) :
    agePart t = [] := by
  simp only [agePart, hf,
    if_neg (show ¬0 < invalidAgeCount c by rw [hk]; exact lt_irrefl 0)]

theorem agePart_nil_of_none (t : Table)
    (hf : findCol t "TP_FAIXA_ETARIA" = none) : agePart t = [] := by
  simp only [agePart, hf]

/-- C7: the Validator's issue list.  For each of the four core score columns
present in the table, exactly one issue string naming the column and the
count of its non-missing out-of-range values (strictly below 0 or strictly
above 1000) appears — and only when that count is positive; absent columns
are silently skipped; the essay-score column is validated under the same
range rule and the age-bracket column under the value-below-1 rule, each
likewise contributing exactly one issue when its count is positive; and a
fully valid table yields an empty issue list. -/
theorem C7_validator_issue_list (t : Table) (col : String) (hcol : col ∈ scoreCols) :
    (∀ c, findCol t col = some c → 0 < invalidScoreCount c →
      (validate_data t).count (scoreMsg col (invalidScoreCount c)) = 1) ∧
    (∀ c, findCol t col = some c → invalidScoreCount c = 0 →
      ∀ j, scoreMsg col j ∉ validate_data t) ∧
    (findCol t col = none → ∀ j, scoreMsg col j ∉ validate_data t) ∧
    (∀ c, findCol t "NU_NOTA_REDACAO" = some c → 0 < invalidScoreCount c →
      (validate_data t).count (essayMsg (invalidScoreCount c)) = 1) ∧
    (∀ c, findCol t "TP_FAIXA_ETARIA" = some c → 0 < invalidAgeCount c →
      (validate_data t).count (ageMsg (invalidAgeCount c)) = 1) ∧
    ((∀ col', col' ∈ scoreCols → ∀ c, findCol t col' = some c →
        invalidScoreCount c = 0) →
     (∀ c, findCol t "NU_NOTA_REDACAO" = some c → invalidScoreCount c = 0) →
     (∀ c, findCol t "TP_FAIXA_ETARIA" = some c → invalidAgeCount c = 0) →
     validate_data t = []) := by
  have hc4 : col = "NU_NOTA_CN" ∨ col = "NU_NOTA_CH" ∨ col = "NU_NOTA_LC" ∨
      col = "NU_NOTA_MT" := by
    simpa [scoreCols] using hcol
  refine ⟨?_, ?_, ?_, ?_, ?_, ?_⟩
  · -- exactly one issue when the count is positive
    intro c hf hk
    rcases hc4 with rfl | rfl | rfl | rfl
    · rw [validate_decomp, List.count_append, List.count_append, List.count_append,
        List.count_append, List.count_append,
        count_scorePart_one t "NU_NOTA_CN" c hf hk,
        count_scorePart_zero t "NU_NOTA_CH" _ (fun j => ne_CN_CH _ j),
        count_scorePart_zero t "NU_NOTA_LC" _ (fun j => ne_CN_LC _ j),
        count_scorePart_zero t "NU_NOTA_MT" _ (fun j => ne_CN_MT _ j),
        count_essayPart_zero t _ (fun j => ne_CN_essay _ j),
        count_agePart_zero t _ (fun j => ne_CN_age _ j)]
    · rw [validate_decomp, List.count_append, List.count_append, List.count_append,
        List.count_append, List.count_append,
        count_scorePart_one t "NU_NOTA_CH" c hf hk,
        count_scorePart_zero t "NU_NOTA_CN" _ (fun j => (ne_CN_CH j _).symm),
        count_scorePart_zero t "NU_NOTA_LC" _ (fun j => ne_CH_LC _ j),
        count_scorePart_zero t "NU_NOTA_MT" _ (fun j => ne_CH_MT _ j),
        count_essayPart_zero t _ (fun j => ne_CH_essay _ j),
        count_agePart_zero t _ (fun j => ne_CH_age _ j)]
    · rw [validate_decomp, List.count_append, List.count_append, List.count_append,
        List.count_append, List.count_append,
        count_scorePart_one t "NU_NOTA_LC" c hf hk,
        count_scorePart_zero t "NU_NOTA_CN" _ (fun j => (ne_CN_LC j _).symm),
        count_scorePart_zero t "NU_NOTA_CH" _ (fun j => (ne_CH_LC j _).symm),
        count_scorePart_zero t "NU_NOTA_MT" _ (fun j => ne_LC_MT _ j),
        count_essayPart_zero t _ (fun j => ne_LC_essay _ j),
        count_agePart_zero t _ (fun j => ne_LC_age _ j)]
    · rw [validate_decomp, List.count_append, List.count_append, List.count_append,
        List.count_append, List.count_append,
        count_scorePart_one t "NU_NOTA_MT" c hf hk,
        count_scorePart_zero t "NU_NOTA_CN" _ (fun j => (ne_CN_MT j _).symm),
        count_scorePart_zero t "NU_NOTA_CH" _ (fun j => (ne_CH_MT j _).symm),
        count_scorePart_zero t "NU_NOTA_LC" _ (fun j => (ne_LC_MT j _).symm),
        count_essayPart_zero t _ (fun j => ne_MT_essay _ j),
        count_agePart_zero t _ (fun j => ne_MT_age _ j)]
  · -- no issue when the count is zero
    intro c hf hk0 j hmem
    rw [validate_decomp] at hmem
    rcases List.mem_append.mp hmem with hm | hm
    rotate_left
    · obtain ⟨c0, _, _, hx⟩ := mem_agePart t _ hm
      rcases hc4 with rfl | rfl | rfl | rfl
      · exact ne_CN_age j _ hx
      · exact ne_CH_age j _ hx
      · exact ne_LC_age j _ hx
      · exact ne_MT_age j _ hx
    rcases List.mem_append.mp hm with hm2 | hm2
    rotate_left
    · obtain ⟨c0, _, _, hx⟩ := mem_essayPart t _ hm2
      rcases hc4 with rfl | rfl | rfl | rfl
      · exact ne_CN_essay j _ hx
      · exact ne_CH_essay j _ hx
      · exact ne_LC_essay j _ hx
      · exact ne_MT_essay j _ hx
    rcases List.mem_append.mp hm2 with hm3 | hm3
    rotate_left
    · obtain ⟨c0, _, _, hx⟩ := mem_scorePart t "NU_NOTA_MT" _ hm3
      rcases hc4 with rfl | rfl | rfl | rfl
      · exact ne_CN_MT j _ hx
      · exact ne_CH_MT j _ hx
      · exact ne_LC_MT j _ hx
      · rw [scorePart_nil_of_zero t "NU_NOTA_MT" c hf hk0] at hm3
        exact absurd hm3 (List.not_mem_nil _)
    rcases List.mem_append.mp hm3 with hm4 | hm4
    rotate_left
    · obtain ⟨c0, _, _, hx⟩ := mem_scorePart t "NU_NOTA_LC" _ hm4
      rcases hc4 with rfl | rfl | rfl | rfl
      · exact ne_CN_LC j _ hx
      · exact ne_CH_LC j _ hx
      · rw [scorePart_nil_of_zero t "NU_NOTA_LC" c hf hk0] at hm4
        exact absurd hm4 (List.not_mem_nil _)
      · exact (ne_LC_MT _ j).symm hx
    rcases List.mem_append.mp hm4 with hm5 | hm5
    rotate_left
    · obtain ⟨c0, _, _, hx⟩ := mem_scorePart t "NU_NOTA_CH" _ hm5
      rcases hc4 with rfl | rfl | rfl | rfl
      · exact ne_CN_CH j _ hx
      · rw [scorePart_nil_of_zero t "NU_NOTA_CH" c hf hk0] at hm5
        exact absurd hm5 (List.not_mem_nil _)
      · exact (ne_CH_LC _ j).symm hx
      · exact (ne_CH_MT _ j).symm hx
    · obtain ⟨c0, _, _, hx⟩ := mem_scorePart t "NU_NOTA_CN" _ hm5
      rcases hc4 with rfl | rfl | rfl | rfl
      · rw [scorePart_nil_of_zero t "NU_NOTA_CN" c hf hk0] at hm5
        exact absurd hm5 (List.not_mem_nil _)
      · exact (ne_CN_CH _ j).symm hx
      · exact (ne_CN_LC _ j).symm hx
      · exact (ne_CN_MT _ j).symm hx
  · -- absent column: silently skipped
    intro hf j hmem
    rw [validate_decomp] at hmem
    rcases List.mem_append.mp hmem with hm | hm
    rotate_left
    · obtain ⟨c0, _, _, hx⟩ := mem_agePart t _ hm
      rcases hc4 with rfl | rfl | rfl | rfl
      · exact ne_CN_age j _ hx
      · exact ne_CH_age j _ hx
      · exact ne_LC_age j _ hx
      · exact ne_MT_age j _ hx
    rcases List.mem_append.mp hm with hm2 | hm2
    rotate_left
    · obtain ⟨c0, _, _, hx⟩ := mem_essayPart t _ hm2
      rcases hc4 with rfl | rfl | rfl | rfl
      · exact ne_CN_essay j _ hx
      · exact ne_CH_essay j _ hx
      · exact ne_LC_essay j _ hx
      · exact ne_MT_essay j _ hx
    rcases List.mem_append.mp hm2 with hm3 | hm3
    rotate_left
    · obtain ⟨c0, _, _, hx⟩ := mem_scorePart t "NU_NOTA_MT" _ hm3
      rcases hc4 with rfl | rfl | rfl | rfl
      · exact ne_CN_MT j _ hx
      · exact ne_CH_MT j _ hx
      · exact ne_LC_MT j _ hx
      · rw [scorePart_nil_of_none t "NU_NOTA_MT" hf] at hm3
        exact absurd hm3 (List.not_mem_nil _)
    rcases List.mem_append.mp hm3 with hm4 | hm4
    rotate_left
    · obtain ⟨c0, _, _, hx⟩ := mem_scorePart t "NU_NOTA_LC" _ hm4
      rcases hc4 with rfl | rfl | rfl | rfl
      · exact ne_CN_LC j _ hx
      · exact ne_CH_LC j _ hx
      · rw [scorePart_nil_of_none t "NU_NOTA_LC" hf] at hm4
        exact absurd hm4 (List.not_mem_nil _)
      · exact (ne_LC_MT _ j).symm hx
    rcases List.mem_append.mp hm4 with hm5 | hm5
    rotate_left
    · obtain ⟨c0, _, _, hx⟩ := mem_scorePart t "NU_NOTA_CH" _ hm5
      rcases hc4 with rfl | rfl | rfl | rfl
      · exact ne_CN_CH j _ hx
      · rw [scorePart_nil_of_none t "NU_NOTA_CH" hf] at hm5
        exact absurd hm5 (List.not_mem_nil _)
      · exact (ne_CH_LC _ j).symm hx
      · exact (ne_CH_MT _ j).symm hx
    · obtain ⟨c0, _, _, hx⟩ := mem_scorePart t "NU_NOTA_CN" _ hm5
      rcases hc4 with rfl | rfl | rfl | rfl
      · rw [scorePart_nil_of_none t "NU_NOTA_CN" hf] at hm5
        exact absurd hm5 (List.not_mem_nil _)
      · exact (ne_CN_CH _ j).symm hx
      · exact (ne_CN_LC _ j).symm hx
      · exact (ne_CN_MT _ j).symm hx
  · -- essay column: same range rule
    intro c hf hk
    rw [validate_decomp, List.count_append, List.count_append, List.count_append,
      List.count_append, List.count_append,
      count_essayPart_one t c hf hk,
      count_scorePart_zero t "NU_NOTA_CN" _ (fun j => (ne_CN_essay j _).symm),
      count_scorePart_zero t "NU_NOTA_CH" _ (fun j => (ne_CH_essay j _).symm),
      count_scorePart_zero t "NU_NOTA_LC" _ (fun j => (ne_LC_essay j _).symm),
      count_scorePart_zero t "NU_NOTA_MT" _ (fun j => (ne_MT_essay j _).symm),
      count_agePart_zero t _ (fun j => ne_essay_age _ j)]
  · -- age-bracket column: values below 1 are invalid
    intro c hf hk
    rw [validate_decomp, List.count_append, List.count_append, List.count_append,
      List.count_append, List.count_append,
      count_agePart_one t c hf hk,
      count_scorePart_zero t "NU_NOTA_CN" _ (fun j => (ne_CN_age j _).symm),
      count_scorePart_zero t "NU_NOTA_CH" _ (fun j => (ne_CH_age j _).symm),
      count_scorePart_zero t "NU_NOTA_LC" _ (fun j => (ne_LC_age j _).symm),
      count_scorePart_zero t "NU_NOTA_MT" _ (fun j => (ne_MT_age j _).symm),
      count_essayPart_zero t _ (fun j => (ne_essay_age j _).symm)]
  · -- fully valid table: empty issue list
    intro h1 h2 h3
    have hsp : ∀ col', col' ∈ scoreCols → scorePart t col' = [] := by
      intro col' hcol'
      cases hf : findCol t col' with
      | none => exact scorePart_nil_of_none t col' hf
      | some c => exact scorePart_nil_of_zero t col' c hf (h1 col' hcol' c hf)
    have hep : essayPart t = [] := by
      cases hf : findCol t "NU_NOTA_REDACAO" with
      | none => exact essayPart_nil_of_none t hf
      | some c => exact essayPart_nil_of_zero t c hf (h2 c hf)
    have hap : agePart t = [] := by
      cases hf : findCol t "TP_FAIXA_ETARIA" with
      | none => exact agePart_nil_of_none t hf
      | some c => exact agePart_nil_of_zero t c hf (h3 c hf)
    rw [validate_decomp, hsp "NU_NOTA_CN" (by decide), hsp "NU_NOTA_CH" (by decide),
      hsp "NU_NOTA_LC" (by decide), hsp "NU_NOTA_MT" (by decide), hep, hap]
    rfl

/-- C7 (witness): the theorem applied, at column `NU_NOTA_CN`, to a table
with one out-of-range core score, one out-of-range essay score and one
invalid age bracket. -/
theorem C7_witness :
    ("NU_NOTA_CN" : String) ∈ scoreCols ∧
    ((∀ c, findCol
        [("NU_NOTA_CN", (⟨Dtype.float64, [Value.num 1500, Value.num 500, Value.null]⟩ : Column)),
         ("NU_NOTA_REDACAO", (⟨Dtype.float32, [Value.num (-20)]⟩ : Column)),
         ("TP_FAIXA_ETARIA", (⟨Dtype.int8, [Value.num 0]⟩ : Column))]
        "NU_NOTA_CN" = some c → 0 < invalidScoreCount c →
      (validate_data
        [("NU_NOTA_CN", (⟨Dtype.float64, [Value.num 1500, Value.num 500, Value.null]⟩ : Column)),
         ("NU_NOTA_REDACAO", (⟨Dtype.float32, [Value.num (-20)]⟩ : Column)),
         ("TP_FAIXA_ETARIA", (⟨Dtype.int8, [Value.num 0]⟩ : Column))]).count
        (scoreMsg "NU_NOTA_CN" (invalidScoreCount c)) = 1) ∧
     (∀ c, findCol
        [("NU_NOTA_CN", (⟨Dtype.float64, [Value.num 1500, Value.num 500, Value.null]⟩ : Column)),
         ("NU_NOTA_REDACAO", (⟨Dtype.float32, [Value.num (-20)]⟩ : Column)),
         ("TP_FAIXA_ETARIA", (⟨Dtype.int8, [Value.num 0]⟩ : Column))]
        "NU_NOTA_CN" = some c → invalidScoreCount c = 0 →
      ∀ j, scoreMsg "NU_NOTA_CN" j ∉ validate_data
        [("NU_NOTA_CN", (⟨Dtype.float64, [Value.num 1500, Value.num 500, Value.null]⟩ : Column)),
         ("NU_NOTA_REDACAO", (⟨Dtype.float32, [Value.num (-20)]⟩ : Column)),
         ("TP_FAIXA_ETARIA", (⟨Dtype.int8, [Value.num 0]⟩ : Column))]) ∧
     (findCol
        [("NU_NOTA_CN", (⟨Dtype.float64, [Value.num 1500, Value.num 500, Value.null]⟩ : Column)),
         ("NU_NOTA_REDACAO", (⟨Dtype.float32, [Value.num (-20)]⟩ : Column)),
         ("TP_FAIXA_ETARIA", (⟨Dtype.int8, [Value.num 0]⟩ : Column))]
        "NU_NOTA_CN" = none →
      ∀ j, scoreMsg "NU_NOTA_CN" j ∉ validate_data
        [("NU_NOTA_CN", (⟨Dtype.float64, [Value.num 1500, Value.num 500, Value.null]⟩ : Column)),
         ("NU_NOTA_REDACAO", (⟨Dtype.float32, [Value.num (-20)]⟩ : Column)),
         ("TP_FAIXA_ETARIA", (⟨Dtype.int8, [Value.num 0]⟩ : Column))]) ∧
     (∀ c, findCol
        [("NU_NOTA_CN", (⟨Dtype.float64, [Value.num 1500, Value.num 500, Value.null]⟩ : Column)),
         ("NU_NOTA_REDACAO", (⟨Dtype.float32, [Value.num (-20)]⟩ : Column)),
         ("TP_FAIXA_ETARIA", (⟨Dtype.int8, [Value.num 0]⟩ : Column))]
        "NU_NOTA_REDACAO" = some c → 0 < invalidScoreCount c →
      (validate_data
        [("NU_NOTA_CN", (⟨Dtype.float64, [Value.num 1500, Value.num 500, Value.null]⟩ : Column)),
         ("NU_NOTA_REDACAO", (⟨Dtype.float32, [Value.num (-20)]⟩ : Column)),
         ("TP_FAIXA_ETARIA", (⟨Dtype.int8, [Value.num 0]⟩ : Column))]).count
        (essayMsg (invalidScoreCount c)) = 1) ∧
     (∀ c, findCol
        [("NU_NOTA_CN", (⟨Dtype.float64, [Value.num 1500, Value.num 500, Value.null]⟩ : Column)),
         ("NU_NOTA_REDACAO", (⟨Dtype.float32, [Value.num (-20)]⟩ : Column)),
         ("TP_FAIXA_ETARIA", (⟨Dtype.int8, [Value.num 0]⟩ : Column))]
        "TP_FAIXA_ETARIA" = some c → 0 < invalidAgeCount c →
      (validate_data
        [("NU_NOTA_CN", (⟨Dtype.float64, [Value.num 1500, Value.num 500, Value.null]⟩ : Column)),
         ("NU_NOTA_REDACAO", (⟨Dtype.float32, [Value.num (-20)]⟩ : Column)),
         ("TP_FAIXA_ETARIA", (⟨Dtype.int8, [Value.num 0]⟩ : Column))]).count
        (ageMsg (invalidAgeCount c)) = 1) ∧
     ((∀ col', col' ∈ scoreCols → ∀ c, findCol
        [("NU_NOTA_CN", (⟨Dtype.float64, [Value.num 1500, Value.num 500, Value.null]⟩ : Column)),
         ("NU_NOTA_REDACAO", (⟨Dtype.float32, [Value.num (-20)]⟩ : Column)),
         ("TP_FAIXA_ETARIA", (⟨Dtype.int8, [Value.num 0]⟩ : Column))] col' = some c →
        invalidScoreCount c = 0) →
      (∀ c, findCol
        [("NU_NOTA_CN", (⟨Dtype.float64, [Value.num 1500, Value.num 500, Value.null]⟩ : Column)),
         ("NU_NOTA_REDACAO", (⟨Dtype.float32, [Value.num (-20)]⟩ : Column)),
         ("TP_FAIXA_ETARIA", (⟨Dtype.int8, [Value.num 0]⟩ : Column))]
        "NU_NOTA_REDACAO" = some c → invalidScoreCount c = 0) →
      (∀ c, findCol
        [("NU_NOTA_CN", (⟨Dtype.float64, [Value.num 1500, Value.num 500, Value.null]⟩ : Column)),
         ("NU_NOTA_REDACAO", (⟨Dtype.float32, [Value.num (-20)]⟩ : Column)),
         ("TP_FAIXA_ETARIA", (⟨Dtype.int8, [Value.num 0]⟩ : Column))]
        "TP_FAIXA_ETARIA" = some c → invalidAgeCount c = 0) →
      validate_data
        [("NU_NOTA_CN", (⟨Dtype.float64, [Value.num 1500, Value.num 500, Value.null]⟩ : Column)),
         ("NU_NOTA_REDACAO", (⟨Dtype.float32, [Value.num (-20)]⟩ : Column)),
         ("TP_FAIXA_ETARIA", (⟨Dtype.int8, [Value.num 0]⟩ : Column))] = [])) :=
  ⟨by decide, C7_validator_issue_list _ "NU_NOTA_CN" (by decide)⟩

/-! ### Derived-feature values (C4). -/

theorem rangeMap_getD (f : Nat → Value) (n i : Nat) (hi : i < n) :
    ((List.range n).map f).getD i .null = f i := by
  rw [List.getD_eq_getElem?_getD, List.getElem?_map, List.getElem?_range hi]
  rfl

/-- The running maximum of `idxmax`: the fold keeps the first pair attaining
the maximum value; stated as a list split. -/
theorem foldl_max_split (rest : List (String × ℚ)) (p : String × ℚ) :
    ∃ l1 x l2, p :: rest = l1 ++ x :: l2 ∧
      rest.foldl (fun acc q => if acc.2 < q.2 then q else acc) p = x ∧
      (∀ y ∈ p :: rest, y.2 ≤ x.2) ∧
      (∀ y ∈ l1, y.2 < x.2) := by
  induction rest generalizing p with
  | nil =>
    refine ⟨[], p, [], rfl, rfl, ?_, ?_⟩
    · intro y hy
      rw [List.mem_singleton.mp hy]
    · intro y hy
      exact absurd hy (List.not_mem_nil y)
  | cons q rest' ih =>
    obtain ⟨l1', x, l2', hsplit, hfold, hmax, hstrict⟩ := ih (if p.2 < q.2 then q else p)
    by_cases hpq : p.2 < q.2
    · rw [if_pos hpq] at hsplit hfold hmax
      refine ⟨p :: l1', x, l2', ?_, ?_, ?_, ?_⟩
      · rw [List.cons_append, ← hsplit]
      · show List.foldl _ (if p.2 < q.2 then q else p) rest' = x
        rw [if_pos hpq]
        exact hfold
      · intro y hy
        rcases List.mem_cons.mp hy with rfl | hy2
        · exact le_of_lt (lt_of_lt_of_le hpq (hmax q (List.mem_cons_self _ _)))
        · exact hmax y hy2
      · intro y hy
        rcases List.mem_cons.mp hy with rfl | hy2
        · exact lt_of_lt_of_le hpq (hmax q (List.mem_cons_self _ _))
        · exact hstrict y hy2
    · rw [if_neg hpq] at hsplit hfold hmax
      cases l1' with
      | nil =>
        rw [List.nil_append] at hsplit
        have hx : p = x := (List.cons.injEq _ _ _ _ ▸ hsplit).1
        refine ⟨[], x, q :: rest', ?_, ?_, ?_, ?_⟩
        · rw [List.nil_append, ← hx]
        · show List.foldl _ (if p.2 < q.2 then q else p) rest' = x
          rw [if_neg hpq]
          exact hfold
        · intro y hy
          rcases List.mem_cons.mp hy with rfl | hy2
          · exact hmax _ (List.mem_cons_self _ _)
          · rcases List.mem_cons.mp hy2 with rfl | hy3
            · exact le_trans (le_of_not_lt hpq) (hmax p (List.mem_cons_self _ _))
            · exact hmax y (List.mem_cons_of_mem _ hy3)
        · intro y hy
          exact absurd hy (List.not_mem_nil y)
      | cons a l1'' =>
        rw [List.cons_append] at hsplit
        have ha : p = a := (List.cons.injEq _ _ _ _ ▸ hsplit).1
        have hrest : rest' = l1'' ++ x :: l2' := (List.cons.injEq _ _ _ _ ▸ hsplit).2
        have hpl : p.2 < x.2 := by
          rw [ha]
          exact hstrict a (List.mem_cons_self _ _)
        refine ⟨p :: q :: l1'', x, l2', ?_, ?_, ?_, ?_⟩
        · rw [List.cons_append, List.cons_append, ← hrest]
        · show List.foldl _ (if p.2 < q.2 then q else p) rest' = x
          rw [if_neg hpq]
          exact hfold
        · intro y hy
          rcases List.mem_cons.mp hy with rfl | hy2
          · exact le_of_lt hpl
          · rcases List.mem_cons.mp hy2 with rfl | hy3
            · exact le_trans (le_of_not_lt hpq) (le_of_lt hpl)
            · exact hmax y (List.mem_cons_of_mem _ hy3)
        · intro y hy
          rcases List.mem_cons.mp hy with rfl | hy2
          · exact hpl
          · rcases List.mem_cons.mp hy2 with rfl | hy3
            · exact lt_of_le_of_lt (le_of_not_lt hpq) hpl
            · exact hstrict y (List.mem_cons_of_mem _ hy3)

/-- The running minimum of `idxmin`, dually. -/
theorem foldl_min_split (rest : List (String × ℚ)) (p : String × ℚ) :
    ∃ l1 x l2, p :: rest = l1 ++ x :: l2 ∧
      rest.foldl (fun acc q => if q.2 < acc.2 then q else acc) p = x ∧
      (∀ y ∈ p :: rest, x.2 ≤ y.2) ∧
      (∀ y ∈ l1, x.2 < y.2) := by
  induction rest generalizing p with
  | nil =>
    refine ⟨[], p, [], rfl, rfl, ?_, ?_⟩
    · intro y hy
      rw [List.mem_singleton.mp hy]
    · intro y hy
      exact absurd hy (List.not_mem_nil y)
  | cons q rest' ih =>
    obtain ⟨l1', x, l2', hsplit, hfold, hmin, hstrict⟩ := ih (if q.2 < p.2 then q else p)
    by_cases hpq : q.2 < p.2
    · rw [if_pos hpq] at hsplit hfold hmin
      refine ⟨p :: l1', x, l2', ?_, ?_, ?_, ?_⟩
      · rw [List.cons_append, ← hsplit]
      · show List.foldl _ (if q.2 < p.2 then q else p) rest' = x
        rw [if_pos hpq]
        exact hfold
      · intro y hy
        rcases List.mem_cons.mp hy with rfl | hy2
        · exact le_of_lt (lt_of_le_of_lt (hmin q (List.mem_cons_self _ _)) hpq)
        · exact hmin y hy2
      · intro y hy
        rcases List.mem_cons.mp hy with rfl | hy2
        · exact lt_of_le_of_lt (hmin q (List.mem_cons_self _ _)) hpq
        · exact hstrict y hy2
    · rw [if_neg hpq] at hsplit hfold hmin
      cases l1' with
      | nil =>
        rw [List.nil_append] at hsplit
        have hx : p = x := (List.cons.injEq _ _ _ _ ▸ hsplit).1
        refine ⟨[], x, q :: rest', ?_, ?_, ?_, ?_⟩
        · rw [List.nil_append, ← hx]
        · show List.foldl _ (if q.2 < p.2 then q else p) rest' = x
          rw [if_neg hpq]
          exact hfold
        · intro y hy
          rcases List.mem_cons.mp hy with rfl | hy2
          · exact hmin _ (List.mem_cons_self _ _)
          · rcases List.mem_cons.mp hy2 with rfl | hy3
            · exact le_trans (hmin p (List.mem_cons_self _ _)) (le_of_not_lt hpq)
            · exact hmin y (List.mem_cons_of_mem _ hy3)
        · intro y hy
          exact absurd hy (List.not_mem_nil y)
      | cons a l1'' =>
        rw [List.cons_append] at hsplit
        have ha : p = a := (List.cons.injEq _ _ _ _ ▸ hsplit).1
        have hrest : rest' = l1'' ++ x :: l2' := (List.cons.injEq _ _ _ _ ▸ hsplit).2
        have hpl : x.2 < p.2 := by
          rw [ha]
          exact hstrict a (List.mem_cons_self _ _)
        refine ⟨p :: q :: l1'', x, l2', ?_, ?_, ?_, ?_⟩
        · rw [List.cons_append, List.cons_append, ← hrest]
        · show List.foldl _ (if q.2 < p.2 then q else p) rest' = x
          rw [if_neg hpq]
          exact hfold
        · intro y hy
          rcases List.mem_cons.mp hy with rfl | hy2
          · exact le_of_lt hpl
          · rcases List.mem_cons.mp hy2 with rfl | hy3
            · exact le_trans (le_of_lt hpl) (le_of_not_lt hpq)
            · exact hmin y (List.mem_cons_of_mem _ hy3)
        · intro y hy
          rcases List.mem_cons.mp hy with rfl | hy2
          · exact hpl
          · rcases List.mem_cons.mp hy2 with rfl | hy3
            · exact lt_of_lt_of_le hpl (le_of_not_lt hpq)
            · exact hstrict y (List.mem_cons_of_mem _ hy3)

theorem firstMax_split (p : String × ℚ) (rest : List (String × ℚ)) :
    ∃ l1 x l2, p :: rest = l1 ++ x :: l2 ∧
      firstMax (p :: rest) = some x.1 ∧
      (∀ y ∈ p :: rest, y.2 ≤ x.2) ∧
      (∀ y ∈ l1, y.2 < x.2) := by
  obtain ⟨l1, x, l2, hs, hf, hm, hst⟩ := foldl_max_split rest p
  exact ⟨l1, x, l2, hs, by rw [firstMax, hf], hm, hst⟩

theorem firstMin_split (p : String × ℚ) (rest : List (String × ℚ)) :
    ∃ l1 x l2, p :: rest = l1 ++ x :: l2 ∧
      firstMin (p :: rest) = some x.1 ∧
      (∀ y ∈ p :: rest, x.2 ≤ y.2) ∧
      (∀ y ∈ l1, x.2 < y.2) := by
  obtain ⟨l1, x, l2, hs, hf, hm, hst⟩ := foldl_min_split rest p
  exact ⟨l1, x, l2, hs, by rw [firstMin, hf], hm, hst⟩

/-- Every row pair carries one of the four score-column names. -/
theorem rowPairs_names (c1 c2 c3 c4 : Column) (i : Nat) (y : String × ℚ)
    (hy : y ∈ rowPairs c1 c2 c3 c4 i) : y.1 ∈ scoreCols := by
  rw [rowPairs] at hy
  obtain ⟨p0, hp0, hmap⟩ := List.mem_filterMap.mp hy
  have hname : y.1 = p0.1 := by
    cases hv : p0.2 with
    | num q =>
      rw [hv] at hmap
      cases hmap
      rfl
    | null => rw [hv] at hmap; exact Option.noConfusion hmap
    | str s => rw [hv] at hmap; exact Option.noConfusion hmap
    | sqrtNum q => rw [hv] at hmap; exact Option.noConfusion hmap
  rw [hname]
  rw [scoreCellsAt] at hp0
  rcases List.mem_cons.mp hp0 with rfl | hp1
  · exact List.mem_cons_self _ _
  rcases List.mem_cons.mp hp1 with rfl | hp2
  · exact List.mem_cons_of_mem _ (List.mem_cons_self _ _)
  rcases List.mem_cons.mp hp2 with rfl | hp3
  · exact List.mem_cons_of_mem _ (List.mem_cons_of_mem _ (List.mem_cons_self _ _))
  rcases List.mem_cons.mp hp3 with rfl | hp4
  · exact List.mem_cons_of_mem _ (List.mem_cons_of_mem _
      (List.mem_cons_of_mem _ (List.mem_cons_self _ _)))
  · exact absurd hp4 (List.not_mem_nil _)

theorem subject_label_total (n : String) (hn : n ∈ scoreCols) :
    ∃ l, lookupBy n SUBJECT_LABELS = some l := by
  rcases (by simpa [scoreCols] using hn :
      n = "NU_NOTA_CN" ∨ n = "NU_NOTA_CH" ∨ n = "NU_NOTA_LC" ∨ n = "NU_NOTA_MT")
    with rfl | rfl | rfl | rfl
  · exact ⟨"Natural Sciences", rfl⟩
  · exact ⟨"Human Sciences", rfl⟩
  · exact ⟨"Languages", rfl⟩
  · exact ⟨"Mathematics", rfl⟩

theorem findCol_derived_avg (t : Table) (c1 c2 c3 c4 : Column)
    (h1 : findCol t "NU_NOTA_CN" = some c1) (h2 : findCol t "NU_NOTA_CH" = some c2)
    (h3 : findCol t "NU_NOTA_LC" = some c3) (h4 : findCol t "NU_NOTA_MT" = some c4) :
    findCol (create_derived_features t) "AVERAGE_SCORE" = some (avgColOf c1 c2 c3 c4) := by
  rw [create_derived_eq t c1 c2 c3 c4 h1 h2 h3 h4,
    findCol_setCol_ne _ _ _ _ (by decide), findCol_setCol_ne _ _ _ _ (by decide),
    findCol_setCol_ne _ _ _ _ (by decide), findCol_setCol_self]

theorem findCol_derived_std (t : Table) (c1 c2 c3 c4 : Column)
    (h1 : findCol t "NU_NOTA_CN" = some c1) (h2 : findCol t "NU_NOTA_CH" = some c2)
    (h3 : findCol t "NU_NOTA_LC" = some c3) (h4 : findCol t "NU_NOTA_MT" = some c4) :
    findCol (create_derived_features t) "SCORE_STD" = some (stdColOf c1 c2 c3 c4) := by
  rw [create_derived_eq t c1 c2 c3 c4 h1 h2 h3 h4,
    findCol_setCol_ne _ _ _ _ (by decide), findCol_setCol_ne _ _ _ _ (by decide),
    findCol_setCol_self]

theorem findCol_derived_best (t : Table) (c1 c2 c3 c4 : Column)
    (h1 : findCol t "NU_NOTA_CN" = some c1) (h2 : findCol t "NU_NOTA_CH" = some c2)
    (h3 : findCol t "NU_NOTA_LC" = some c3) (h4 : findCol t "NU_NOTA_MT" = some c4) :
    findCol (create_derived_features t) "BEST_SUBJECT" = some (bestColOf c1 c2 c3 c4) := by
  rw [create_derived_eq t c1 c2 c3 c4 h1 h2 h3 h4,
    findCol_setCol_ne _ _ _ _ (by decide), findCol_setCol_self]

theorem findCol_derived_worst (t : Table) (c1 c2 c3 c4 : Column)
    (h1 : findCol t "NU_NOTA_CN" = some c1) (h2 : findCol t "NU_NOTA_CH" = some c2)
    (h3 : findCol t "NU_NOTA_LC" = some c3) (h4 : findCol t "NU_NOTA_MT" = some c4) :
    findCol (create_derived_features t) "WORST_SUBJECT" = some (worstColOf c1 c2 c3 c4) := by
  rw [create_derived_eq t c1 c2 c3 c4 h1 h2 h3 h4, findCol_setCol_self]

theorem ratCast_list_sum (l : List ℚ) :
    ((l.sum : ℚ) : ℝ) = (l.map (fun x : ℚ => (x : ℝ))).sum := by
  induction l with
  | nil => simp
  | cons a as ih => rw [List.sum_cons, List.map_cons, List.sum_cons, Rat.cast_add, ih]

/-- C4: for every table containing all four core score columns, the
Derived-Feature Builder computes, per row over the row's non-missing score
entries `rowPairs` (taken in the fixed order CN, CH, LC, MT):
`AVERAGE_SCORE` is the arithmetic mean of the present values (missing when
all four are missing); `SCORE_STD` is the sample standard deviation of those
values (the nonnegative real whose square, times the count minus one, is the
sum of squared deviations from the mean; missing when fewer than two values
are present, per `ddof=1`); and `BEST_SUBJECT` / `WORST_SUBJECT` carry the
subject label of the entry holding the row's maximum / minimum score, ties
broken in favour of the first column in the fixed order (every entry weakly
below / above it, every strictly earlier entry strictly below / above). -/
theorem C4_derived_feature_values (t : Table) (c1 c2 c3 c4 : Column)
    (h1 : findCol t "NU_NOTA_CN" = some c1) (h2 : findCol t "NU_NOTA_CH" = some c2)
    (h3 : findCol t "NU_NOTA_LC" = some c3) (h4 : findCol t "NU_NOTA_MT" = some c4)
    (i : Nat) (hi : i < c1.cells.length) :
    (∃ ca, findCol (create_derived_features t) "AVERAGE_SCORE" = some ca ∧
      ca.cells.length = c1.cells.length ∧
      (rowPairs c1 c2 c3 c4 i = [] → ca.cells.getD i .null = .null) ∧
      (rowPairs c1 c2 c3 c4 i ≠ [] → ∃ q : ℚ, ca.cells.getD i .null = .num q ∧
        q * (((rowPairs c1 c2 c3 c4 i).map Prod.snd).length : ℚ) =
          ((rowPairs c1 c2 c3 c4 i).map Prod.snd).sum)) ∧
    (∃ cs, findCol (create_derived_features t) "SCORE_STD" = some cs ∧
      (((rowPairs c1 c2 c3 c4 i).map Prod.snd).length < 2 →
        cs.cells.getD i .null = .null) ∧
      (2 ≤ ((rowPairs c1 c2 c3 c4 i).map Prod.snd).length →
        ∃ μ σ : ℝ, (cs.cells.getD i .null).interp = σ ∧ 0 ≤ σ ∧
          μ * (((rowPairs c1 c2 c3 c4 i).map Prod.snd).length : ℝ) =
            (((rowPairs c1 c2 c3 c4 i).map Prod.snd).map (fun x : ℚ => (x : ℝ))).sum ∧
          σ ^ 2 * ((((rowPairs c1 c2 c3 c4 i).map Prod.snd).length : ℝ) - 1) =
            (((rowPairs c1 c2 c3 c4 i).map Prod.snd).map
              (fun x : ℚ => ((x : ℝ) - μ) ^ 2)).sum)) ∧
    (∃ cb, findCol (create_derived_features t) "BEST_SUBJECT" = some cb ∧
      (rowPairs c1 c2 c3 c4 i = [] → cb.cells.getD i .null = .null) ∧
      (rowPairs c1 c2 c3 c4 i ≠ [] → ∃ l1 x l2,
        rowPairs c1 c2 c3 c4 i = l1 ++ x :: l2 ∧
        (∃ l, lookupBy x.1 SUBJECT_LABELS = some l ∧ cb.cells.getD i .null = .str l) ∧
        (∀ y ∈ rowPairs c1 c2 c3 c4 i, y.2 ≤ x.2) ∧
        (∀ y ∈ l1, y.2 < x.2))) ∧
    (∃ cw, findCol (create_derived_features t) "WORST_SUBJECT" = some cw ∧
      (rowPairs c1 c2 c3 c4 i = [] → cw.cells.getD i .null = .null) ∧
      (rowPairs c1 c2 c3 c4 i ≠ [] → ∃ l1 x l2,
        rowPairs c1 c2 c3 c4 i = l1 ++ x :: l2 ∧
        (∃ l, lookupBy x.1 SUBJECT_LABELS = some l ∧ cw.cells.getD i .null = .str l) ∧
        (∀ y ∈ rowPairs c1 c2 c3 c4 i, x.2 ≤ y.2) ∧
        (∀ y ∈ l1, x.2 < y.2))) := by
  refine ⟨⟨avgColOf c1 c2 c3 c4, findCol_derived_avg t c1 c2 c3 c4 h1 h2 h3 h4,
      ?_, ?_, ?_⟩,
    ⟨stdColOf c1 c2 c3 c4, findCol_derived_std t c1 c2 c3 c4 h1 h2 h3 h4, ?_, ?_⟩,
    ⟨bestColOf c1 c2 c3 c4, findCol_derived_best t c1 c2 c3 c4 h1 h2 h3 h4, ?_, ?_⟩,
    ⟨worstColOf c1 c2 c3 c4, findCol_derived_worst t c1 c2 c3 c4 h1 h2 h3 h4, ?_, ?_⟩⟩
  · simp only [avgColOf]
    rw [List.length_map, List.length_range]
  · intro hp
    simp only [avgColOf]
    rw [rangeMap_getD _ _ i hi, avgOf, hp]
    rfl
  · intro hp
    have hxsne : (rowPairs c1 c2 c3 c4 i).map Prod.snd ≠ [] := by
      intro h0
      exact hp (List.map_eq_nil_iff.mp h0)
    have hxs : ((rowPairs c1 c2 c3 c4 i).map Prod.snd).isEmpty = false := by
      cases he : (rowPairs c1 c2 c3 c4 i).map Prod.snd with
      | nil => exact absurd he hxsne
      | cons a l => rfl
    have hlen0 : ((((rowPairs c1 c2 c3 c4 i).map Prod.snd)).length : ℚ) ≠ 0 := by
      rw [Nat.cast_ne_zero]
      exact fun h0 => hxsne (List.length_eq_zero.mp h0)
    refine ⟨ratMean ((rowPairs c1 c2 c3 c4 i).map Prod.snd), ?_, ?_⟩
    · simp only [avgColOf]
      rw [rangeMap_getD _ _ i hi, avgOf, if_neg (by rw [hxs]; exact Bool.false_ne_true)]
    · rw [ratMean_eq]
      exact div_mul_cancel₀ _ hlen0
  · intro hlt
    simp only [stdColOf]
    rw [rangeMap_getD _ _ i hi, stdOf, if_neg (not_le_of_lt hlt)]
  · intro hge
    have hlen1 : (1 : ℕ) ≤ ((rowPairs c1 c2 c3 c4 i).map Prod.snd).length :=
      le_trans (by norm_num) hge
    have hvar0 : 0 ≤ sampleVar ((rowPairs c1 c2 c3 c4 i).map Prod.snd) := by
      rw [sampleVar_eq]
      apply div_nonneg
      · apply List.sum_nonneg
        intro y hy
        obtain ⟨x, _, hxy⟩ := List.mem_map.mp hy
        rw [← hxy]
        exact sq_nonneg _
      · exact Nat.cast_nonneg _
    have hdR : ((((rowPairs c1 c2 c3 c4 i).map Prod.snd).length : ℝ) - 1) ≠ 0 := by
      have h2R : (2 : ℝ) ≤ (((rowPairs c1 c2 c3 c4 i).map Prod.snd).length : ℝ) := by
        exact_mod_cast hge
      intro h0
      nlinarith
    have hlen0R : ((((rowPairs c1 c2 c3 c4 i).map Prod.snd)).length : ℝ) ≠ 0 := by
      have h2R : (2 : ℝ) ≤ (((rowPairs c1 c2 c3 c4 i).map Prod.snd).length : ℝ) := by
        exact_mod_cast hge
      intro h0
      nlinarith
    refine ⟨((ratMean ((rowPairs c1 c2 c3 c4 i).map Prod.snd) : ℚ) : ℝ),
      Real.sqrt ((sampleVar ((rowPairs c1 c2 c3 c4 i).map Prod.snd) : ℚ) : ℝ),
      ?_, Real.sqrt_nonneg _, ?_, ?_⟩
    · simp only [stdColOf]
      rw [rangeMap_getD _ _ i hi, stdOf, if_pos hge]
      rfl
    · rw [show ((ratMean ((rowPairs c1 c2 c3 c4 i).map Prod.snd) : ℚ) : ℝ) =
          ((((rowPairs c1 c2 c3 c4 i).map Prod.snd).sum : ℚ) : ℝ) /
            ((((rowPairs c1 c2 c3 c4 i).map Prod.snd).length : ℕ) : ℝ) from by
        rw [ratMean_eq, Rat.cast_div, Rat.cast_natCast]]
      rw [div_mul_cancel₀ _ hlen0R, ratCast_list_sum]
    · rw [Real.sq_sqrt (by exact_mod_cast hvar0 :
        (0 : ℝ) ≤ ((sampleVar ((rowPairs c1 c2 c3 c4 i).map Prod.snd) : ℚ) : ℝ))]
      rw [show ((sampleVar ((rowPairs c1 c2 c3 c4 i).map Prod.snd) : ℚ) : ℝ) =
          (((((rowPairs c1 c2 c3 c4 i).map Prod.snd).map
              (fun x => (x - ratMean ((rowPairs c1 c2 c3 c4 i).map Prod.snd)) ^ 2)).sum
            : ℚ) : ℝ) /
          (((((rowPairs c1 c2 c3 c4 i).map Prod.snd).length - 1 : ℕ) : ℚ) : ℝ) from by
        rw [sampleVar_eq, Rat.cast_div]]
      rw [show (((((rowPairs c1 c2 c3 c4 i).map Prod.snd).length - 1 : ℕ) : ℚ) : ℝ) =
          ((((rowPairs c1 c2 c3 c4 i).map Prod.snd).length : ℝ) - 1) from by
        rw [Rat.cast_natCast, Nat.cast_sub hlen1, Nat.cast_one]]
      rw [div_mul_cancel₀ _ hdR]
      rw [ratCast_list_sum, List.map_map]
      congr 1
      apply List.map_congr_left
      intro x _
      simp only [Function.comp_apply]
      push_cast
      ring
  · intro hp
    simp only [bestColOf]
    rw [rangeMap_getD _ _ i hi, hp]
    rfl
  · intro hp
    obtain ⟨p, rest, hpr⟩ := List.exists_cons_of_ne_nil hp
    obtain ⟨l1, x, l2, hsplit, hfmax, hmax, hstrict⟩ := firstMax_split p rest
    have hxmem : x ∈ rowPairs c1 c2 c3 c4 i := by
      rw [hpr, hsplit]
      exact List.mem_append.mpr (Or.inr (List.mem_cons_self _ _))
    obtain ⟨l, hl⟩ := subject_label_total x.1 (rowPairs_names c1 c2 c3 c4 i x hxmem)
    refine ⟨l1, x, l2, by rw [hpr]; exact hsplit, ⟨l, hl, ?_⟩, ?_, ?_⟩
    · simp only [bestColOf]
      rw [rangeMap_getD _ _ i hi, hpr]
      simp only [bestOf, hfmax, hl]
    · intro y hy
      rw [hpr] at hy
      exact hmax y hy
    · exact hstrict
  · intro hp
    simp only [worstColOf]
    rw [rangeMap_getD _ _ i hi, hp]
    rfl
  · intro hp
    obtain ⟨p, rest, hpr⟩ := List.exists_cons_of_ne_nil hp
    obtain ⟨l1, x, l2, hsplit, hfmin, hmin, hstrict⟩ := firstMin_split p rest
    have hxmem : x ∈ rowPairs c1 c2 c3 c4 i := by
      rw [hpr, hsplit]
      exact List.mem_append.mpr (Or.inr (List.mem_cons_self _ _))
    obtain ⟨l, hl⟩ := subject_label_total x.1 (rowPairs_names c1 c2 c3 c4 i x hxmem)
    refine ⟨l1, x, l2, by rw [hpr]; exact hsplit, ⟨l, hl, ?_⟩, ?_, ?_⟩
    · simp only [worstColOf]
      rw [rangeMap_getD _ _ i hi, hpr]
      simp only [worstOf, hfmin, hl]
    · intro y hy
      rw [hpr] at hy
      exact hmin y hy
    · exact hstrict


/-- Witness for C4: the spec's example row `[500, 600, 700, 800]` — the
hypotheses hold by evaluation, the theorem applies, and the derived cells
evaluate to mean `650`, standard deviation `sqrt(50000/3)` (about `129.1`),
best subject `Mathematics` and worst subject `Natural Sciences`. -/
theorem C4_witness :
    (findCol
        [("NU_NOTA_CN", (⟨Dtype.float64, [Value.num 500]⟩ : Column)),
         ("NU_NOTA_CH", (⟨Dtype.float64, [Value.num 600]⟩ : Column)),
         ("NU_NOTA_LC", (⟨Dtype.float64, [Value.num 700]⟩ : Column)),
         ("NU_NOTA_MT", (⟨Dtype.float64, [Value.num 800]⟩ : Column))]
        "NU_NOTA_CN" = some ⟨Dtype.float64, [Value.num 500]⟩) ∧
    ((0 : Nat) < (⟨Dtype.float64, [Value.num 500]⟩ : Column).cells.length) ∧
    ((avgColOf ⟨Dtype.float64, [Value.num 500]⟩ ⟨Dtype.float64, [Value.num 600]⟩
        ⟨Dtype.float64, [Value.num 700]⟩ ⟨Dtype.float64, [Value.num 800]⟩).cells =
      [Value.num 650]) ∧
    ((stdColOf ⟨Dtype.float64, [Value.num 500]⟩ ⟨Dtype.float64, [Value.num 600]⟩
        ⟨Dtype.float64, [Value.num 700]⟩ ⟨Dtype.float64, [Value.num 800]⟩).cells =
      [Value.sqrtNum (mkRat 50000 3)]) ∧
    ((bestColOf ⟨Dtype.float64, [Value.num 500]⟩ ⟨Dtype.float64, [Value.num 600]⟩
        ⟨Dtype.float64, [Value.num 700]⟩ ⟨Dtype.float64, [Value.num 800]⟩).cells =
      [Value.str "Mathematics"]) ∧
    ((worstColOf ⟨Dtype.float64, [Value.num 500]⟩ ⟨Dtype.float64, [Value.num 600]⟩
        ⟨Dtype.float64, [Value.num 700]⟩ ⟨Dtype.float64, [Value.num 800]⟩).cells =
      [Value.str "Natural Sciences"]) ∧
    ((∃ ca, findCol (create_derived_features
        [("NU_NOTA_CN", (⟨Dtype.float64, [Value.num 500]⟩ : Column)),
         ("NU_NOTA_CH", (⟨Dtype.float64, [Value.num 600]⟩ : Column)),
         ("NU_NOTA_LC", (⟨Dtype.float64, [Value.num 700]⟩ : Column)),
         ("NU_NOTA_MT", (⟨Dtype.float64, [Value.num 800]⟩ : Column))])
        "AVERAGE_SCORE" = some ca ∧
      ca.cells.length = (⟨Dtype.float64, [Value.num 500]⟩ : Column).cells.length ∧
      (rowPairs ⟨Dtype.float64, [Value.num 500]⟩ ⟨Dtype.float64, [Value.num 600]⟩
          ⟨Dtype.float64, [Value.num 700]⟩ ⟨Dtype.float64, [Value.num 800]⟩ 0 = [] →
        ca.cells.getD 0 .null = .null) ∧
      (rowPairs ⟨Dtype.float64, [Value.num 500]⟩ ⟨Dtype.float64, [Value.num 600]⟩
          ⟨Dtype.float64, [Value.num 700]⟩ ⟨Dtype.float64, [Value.num 800]⟩ 0 ≠ [] →
        ∃ q : ℚ, ca.cells.getD 0 .null = .num q ∧
          q * (((rowPairs ⟨Dtype.float64, [Value.num 500]⟩
              ⟨Dtype.float64, [Value.num 600]⟩ ⟨Dtype.float64, [Value.num 700]⟩
              ⟨Dtype.float64, [Value.num 800]⟩ 0).map Prod.snd).length : ℚ) =
            ((rowPairs ⟨Dtype.float64, [Value.num 500]⟩ ⟨Dtype.float64, [Value.num 600]⟩
              ⟨Dtype.float64, [Value.num 700]⟩ ⟨Dtype.float64, [Value.num 800]⟩
              0).map Prod.snd).sum)) ∧
    (∃ cs, findCol (create_derived_features
        [("NU_NOTA_CN", (⟨Dtype.float64, [Value.num 500]⟩ : Column)),
         ("NU_NOTA_CH", (⟨Dtype.float64, [Value.num 600]⟩ : Column)),
         ("NU_NOTA_LC", (⟨Dtype.float64, [Value.num 700]⟩ : Column)),
         ("NU_NOTA_MT", (⟨Dtype.float64, [Value.num 800]⟩ : Column))])
        "SCORE_STD" = some cs ∧
      (((rowPairs ⟨Dtype.float64, [Value.num 500]⟩ ⟨Dtype.float64, [Value.num 600]⟩
          ⟨Dtype.float64, [Value.num 700]⟩ ⟨Dtype.float64, [Value.num 800]⟩
          0).map Prod.snd).length < 2 →
        cs.cells.getD 0 .null = .null) ∧
      (2 ≤ ((rowPairs ⟨Dtype.float64, [Value.num 500]⟩ ⟨Dtype.float64, [Value.num 600]⟩
          ⟨Dtype.float64, [Value.num 700]⟩ ⟨Dtype.float64, [Value.num 800]⟩
          0).map Prod.snd).length →
        ∃ μ σ : ℝ, (cs.cells.getD 0 .null).interp = σ ∧ 0 ≤ σ ∧
          μ * (((rowPairs ⟨Dtype.float64, [Value.num 500]⟩
              ⟨Dtype.float64, [Value.num 600]⟩ ⟨Dtype.float64, [Value.num 700]⟩
              ⟨Dtype.float64, [Value.num 800]⟩ 0).map Prod.snd).length : ℝ) =
            (((rowPairs ⟨Dtype.float64, [Value.num 500]⟩ ⟨Dtype.float64, [Value.num 600]⟩
              ⟨Dtype.float64, [Value.num 700]⟩ ⟨Dtype.float64, [Value.num 800]⟩
              0).map Prod.snd).map (fun x : ℚ => (x : ℝ))).sum ∧
          σ ^ 2 * ((((rowPairs ⟨Dtype.float64, [Value.num 500]⟩
              ⟨Dtype.float64, [Value.num 600]⟩ ⟨Dtype.float64, [Value.num 700]⟩
              ⟨Dtype.float64, [Value.num 800]⟩ 0).map Prod.snd).length : ℝ) - 1) =
            (((rowPairs ⟨Dtype.float64, [Value.num 500]⟩ ⟨Dtype.float64, [Value.num 600]⟩
              ⟨Dtype.float64, [Value.num 700]⟩ ⟨Dtype.float64, [Value.num 800]⟩
              0).map Prod.snd).map (fun x : ℚ => ((x : ℝ) - μ) ^ 2)).sum)) ∧
    (∃ cb, findCol (create_derived_features
        [("NU_NOTA_CN", (⟨Dtype.float64, [Value.num 500]⟩ : Column)),
         ("NU_NOTA_CH", (⟨Dtype.float64, [Value.num 600]⟩ : Column)),
         ("NU_NOTA_LC", (⟨Dtype.float64, [Value.num 700]⟩ : Column)),
         ("NU_NOTA_MT", (⟨Dtype.float64, [Value.num 800]⟩ : Column))])
        "BEST_SUBJECT" = some cb ∧
      (rowPairs ⟨Dtype.float64, [Value.num 500]⟩ ⟨Dtype.float64, [Value.num 600]⟩
          ⟨Dtype.float64, [Value.num 700]⟩ ⟨Dtype.float64, [Value.num 800]⟩ 0 = [] →
        cb.cells.getD 0 .null = .null) ∧
      (rowPairs ⟨Dtype.float64, [Value.num 500]⟩ ⟨Dtype.float64, [Value.num 600]⟩
          ⟨Dtype.float64, [Value.num 700]⟩ ⟨Dtype.float64, [Value.num 800]⟩ 0 ≠ [] →
        ∃ l1 x l2,
          rowPairs ⟨Dtype.float64, [Value.num 500]⟩ ⟨Dtype.float64, [Value.num 600]⟩
            ⟨Dtype.float64, [Value.num 700]⟩ ⟨Dtype.float64, [Value.num 800]⟩ 0 =
            l1 ++ x :: l2 ∧
          (∃ l, lookupBy x.1 SUBJECT_LABELS = some l ∧ cb.cells.getD 0 .null = .str l) ∧
          (∀ y ∈ rowPairs ⟨Dtype.float64, [Value.num 500]⟩ ⟨Dtype.float64, [Value.num 600]⟩
            ⟨Dtype.float64, [Value.num 700]⟩ ⟨Dtype.float64, [Value.num 800]⟩ 0,
            y.2 ≤ x.2) ∧
          (∀ y ∈ l1, y.2 < x.2))) ∧
    (∃ cw, findCol (create_derived_features
        [("NU_NOTA_CN", (⟨Dtype.float64, [Value.num 500]⟩ : Column)),
         ("NU_NOTA_CH", (⟨Dtype.float64, [Value.num 600]⟩ : Column)),
         ("NU_NOTA_LC", (⟨Dtype.float64, [Value.num 700]⟩ : Column)),
         ("NU_NOTA_MT", (⟨Dtype.float64, [Value.num 800]⟩ : Column))])
        "WORST_SUBJECT" = some cw ∧
      (rowPairs ⟨Dtype.float64, [Value.num 500]⟩ ⟨Dtype.float64, [Value.num 600]⟩
          ⟨Dtype.float64, [Value.num 700]⟩ ⟨Dtype.float64, [Value.num 800]⟩ 0 = [] →
        cw.cells.getD 0 .null = .null) ∧
      (rowPairs ⟨Dtype.float64, [Value.num 500]⟩ ⟨Dtype.float64, [Value.num 600]⟩
          ⟨Dtype.float64, [Value.num 700]⟩ ⟨Dtype.float64, [Value.num 800]⟩ 0 ≠ [] →
        ∃ l1 x l2,
          rowPairs ⟨Dtype.float64, [Value.num 500]⟩ ⟨Dtype.float64, [Value.num 600]⟩
            ⟨Dtype.float64, [Value.num 700]⟩ ⟨Dtype.float64, [Value.num 800]⟩ 0 =
            l1 ++ x :: l2 ∧
          (∃ l, lookupBy x.1 SUBJECT_LABELS = some l ∧ cw.cells.getD 0 .null = .str l) ∧
          (∀ y ∈ rowPairs ⟨Dtype.float64, [Value.num 500]⟩ ⟨Dtype.float64, [Value.num 600]⟩
            ⟨Dtype.float64, [Value.num 700]⟩ ⟨Dtype.float64, [Value.num 800]⟩ 0,
            x.2 ≤ y.2) ∧
          (∀ y ∈ l1, x.2 < y.2)))) :=
  ⟨rfl, by decide, by decide, by decide, by decide, by decide,
    C4_derived_feature_values
      [("NU_NOTA_CN", (⟨Dtype.float64, [Value.num 500]⟩ : Column)),
       ("NU_NOTA_CH", (⟨Dtype.float64, [Value.num 600]⟩ : Column)),
       ("NU_NOTA_LC", (⟨Dtype.float64, [Value.num 700]⟩ : Column)),
       ("NU_NOTA_MT", (⟨Dtype.float64, [Value.num 800]⟩ : Column))]
      ⟨Dtype.float64, [Value.num 500]⟩ ⟨Dtype.float64, [Value.num 600]⟩
      ⟨Dtype.float64, [Value.num 700]⟩ ⟨Dtype.float64, [Value.num 800]⟩
      rfl rfl rfl rfl 0 (by decide)⟩

end Enem
